import Mathlib

/-!
Verification of the HireSight labor-market data loader
(src/data_loader.py).  The development shallowly embeds the loader's
canonicalization helper, the table-normalization pipeline, the memoized
table/crosswalk caches and the query functions, and proves the
specification's claims about them.  Tables are modelled as lists of rows;
a row is an association list from column names to cells; a cell is a
string, a rational number, or the explicit missing marker (pandas NaN).
-/

namespace HireSight

/-! ### Canonicalization (src/data_loader.py, _canon_soc, lines 11-18) -/

/-- Python str.strip with no arguments: drop whitespace at both ends. -/
def trimChars (l : List Char) : List Char :=
  ((l.dropWhile Char.isWhitespace).reverse.dropWhile Char.isWhitespace).reverse

/-- Python s.replace("–", "-").replace("—", "-"): both patterns are single
characters, so the two replaces act as one character map. -/
def dashNorm (l : List Char) : List Char :=
  l.map (fun c => if c = '–' ∨ c = '—' then '-' else c)

/-- The dash-normalized, trimmed form of a raw code: the local s of
_canon_soc after the replace/strip line. -/
def normTrim (s : String) : String :=
  String.mk (trimChars (dashNorm s.data))

/-- re.sub of all non-digit characters applied to the normalized string:
the digit-only form that _canon_soc measures. -/
def canonDigits (s : String) : List Char :=
  (trimChars (dashNorm s.data)).filter Char.isDigit

/-- Body of _canon_soc on an actual string (lines 14-18): if exactly 7
digits remain the result is digits[:2] ++ "-" ++ digits[2:], otherwise the
dash-normalized, trimmed original string. -/
def canonStr (s : String) : String :=
  if (canonDigits s).length = 7 then
    String.mk ((canonDigits s).take 2) ++ "-" ++ String.mk ((canonDigits s).drop 2)
  else normTrim s

/-- _canon_soc (lines 11-18): None propagates, everything else is
canonicalized as a string. -/
def _canon_soc (x : Option String) : Option String :=
  match x with
  | none => none
  | some s => some (canonStr s)

/-- The canonicalizer on strings as the specification words it (spec
section 4.1), written only to be compared with _canon_soc: digits[0:2] +
"-" + digits[2:7] when the digit-only form has length exactly 7, else the
dash-normalized trimmed original. -/
def canonicalizeSpecStr (x0 : String) : String :=
  if (canonDigits x0).length = 7 then
    String.mk ((canonDigits x0).take 2) ++ "-" ++
      String.mk (((canonDigits x0).drop 2).take 5)
  else normTrim x0

/-- The spec's canonicalizer contract with the None clause. -/
def canonicalizeSpec (x : Option String) : Option String :=
  match x with
  | none => none
  | some x0 => some (canonicalizeSpecStr x0)

theorem take_five_drop_two {l : List Char} (h : l.length = 7) :
    (l.drop 2).take 5 = l.drop 2 := by
  apply List.take_of_length_le
  simp [h]

/-- C2: the canonicalizer agrees with the spec's description everywhere:
None maps to None, otherwise the dash-normalized trimmed string is
reformatted to digits[0:2] + "-" + digits[2:7] exactly when its digit-only
form has length 7 and is returned unchanged otherwise; no input fails
(the function is total), and the two boundary examples hold. -/
theorem canon_soc_spec :
    (∀ x : Option String, _canon_soc x = canonicalizeSpec x) ∧
    _canon_soc none = none ∧
    (∀ s : String, (_canon_soc (some s)).isSome = true) ∧
    _canon_soc (some "15-1212") = some "15-1212" ∧
    _canon_soc (some "151212") = some "151212" := by
  have hstr : ∀ s : String, canonStr s = canonicalizeSpecStr s := by
    intro s
    unfold canonStr canonicalizeSpecStr
    by_cases h : (canonDigits s).length = 7
    · rw [if_pos h, if_pos h, take_five_drop_two h]
    · rw [if_neg h, if_neg h]
  refine ⟨?_, rfl, fun s => rfl, by decide, by decide⟩
  intro x
  cases x with
  | none => rfl
  | some s => show some (canonStr s) = some (canonicalizeSpecStr s); rw [hstr s]

/-! ### Claim C3: shape of the canonicalizer output -/

/-- All characters are ASCII digits. -/
def allDigits (l : List Char) : Bool := l.all Char.isDigit

/-- The NN-NNNN shape the spec declares: exactly two digits, a hyphen,
then exactly four digits. -/
def isShapeNN4 (s : String) : Bool :=
  (s.data.length == 7) && allDigits (s.data.take 2) &&
    ((s.data.drop 2).take 1 == ['-']) && allDigits (s.data.drop 3)

/-- The shape the 7-digit reformat branch actually produces: two digits, a
hyphen, then five digits. -/
def isShapeNN5 (s : String) : Bool :=
  (s.data.length == 8) && allDigits (s.data.take 2) &&
    ((s.data.drop 2).take 1 == ['-']) && allDigits (s.data.drop 3)

theorem isShapeNN5_build {d : List Char} (hlen : d.length = 7)
    (hd : ∀ c ∈ d, c.isDigit = true) :
    isShapeNN5 (String.mk (d.take 2) ++ "-" ++ String.mk (d.drop 2)) = true := by
  have hdata : (String.mk (d.take 2) ++ "-" ++ String.mk (d.drop 2)).data
      = d.take 2 ++ ('-' :: d.drop 2) := by
    show (d.take 2 ++ ['-']) ++ d.drop 2 = d.take 2 ++ ('-' :: d.drop 2)
    simp
  have htk : (d.take 2).length = 2 := by simp [hlen]
  unfold isShapeNN5
  rw [hdata]
  have h1 : (d.take 2 ++ ('-' :: d.drop 2)).length = 8 := by
    simp [hlen]
  have h2 : (d.take 2 ++ ('-' :: d.drop 2)).take 2 = d.take 2 :=
    List.take_left' htk
  have h3 : (d.take 2 ++ ('-' :: d.drop 2)).drop 2 = '-' :: d.drop 2 :=
    List.drop_left' htk
  have h4 : (d.take 2 ++ ('-' :: d.drop 2)).drop 3 = d.drop 2 := by
    have hform : d.take 2 ++ ('-' :: d.drop 2) = (d.take 2 ++ ['-']) ++ d.drop 2 := by
      simp
    rw [hform]
    apply List.drop_left'
    simp [htk]
  rw [h1, h2, h3, h4]
  have hall2 : allDigits (d.take 2) = true := by
    simp only [allDigits, List.all_eq_true]
    intro c hc
    exact hd c (List.mem_of_mem_take hc)
  have hall5 : allDigits (d.drop 2) = true := by
    simp only [allDigits, List.all_eq_true]
    intro c hc
    exact hd c (List.mem_of_mem_drop hc)
  simp [hall2, hall5]

/-- C3 counterexample: on the input "1512120" (digit-only form of length
exactly 7) the reformat branch produces "15-12120", which neither has the
NN-NNNN shape nor equals the trimmed dash-normalized original. -/
theorem canon_nn4_shape_cex :
    canonStr "1512120" = "15-12120" ∧
    isShapeNN4 (canonStr "1512120") = false ∧
    canonStr "1512120" ≠ normTrim "1512120" := by
  refine ⟨by decide, by decide, by decide⟩

/-- C3 (amended): for every input the canonicalizer output is either of
the two-digits, hyphen, five-digits shape or the trimmed dash-normalized
original input; whenever the reformatting branch fires (digit-only form of
length exactly 7) the produced string has that NN-NNNNN shape. -/
theorem canon_shape (s : String) :
    (isShapeNN5 (canonStr s) = true ∨ canonStr s = normTrim s) ∧
    ((canonDigits s).length = 7 → isShapeNN5 (canonStr s) = true) := by
  have main : (canonDigits s).length = 7 → isShapeNN5 (canonStr s) = true := by
    intro h
    unfold canonStr
    rw [if_pos h]
    apply isShapeNN5_build h
    intro c hc
    exact List.of_mem_filter hc
  refine ⟨?_, main⟩
  by_cases h : (canonDigits s).length = 7
  · exact Or.inl (main h)
  · refine Or.inr ?_
    unfold canonStr
    rw [if_neg h]

/-- Witness for canon_shape: on "1512120" the 7-digit hypothesis holds and
the output has the two-digits, hyphen, five-digits shape. -/
theorem canon_shape_witness :
    (canonDigits "1512120").length = 7 ∧ isShapeNN5 (canonStr "1512120") = true :=
  ⟨by decide, (canon_shape "1512120").2 (by decide)⟩

/-! ### Cells, rows and data frames -/

/-- One table cell: a string, a (rational-valued) number, or pandas'
missing marker NaN. -/
inductive Cell where
  | str : String → Cell
  | num : Rat → Cell
  | na : Cell
deriving DecidableEq

/-- pandas isna on one cell. -/
def Cell.isNa : Cell → Bool
  | .na => true
  | _ => false

/-- The numeric content of a cell, when it has one. -/
def Cell.toNumOpt : Cell → Option Rat
  | .num q => some q
  | _ => none

/-- A row is an association list from column names to cells.  Setting a
column prepends, so lookups see the newest binding. -/
abbrev Row := List (String × Cell)

/-- Reading a cell of a row by column name; absent keys read as missing. -/
def getCol (r : Row) (c : String) : Cell :=
  (List.lookup c r).getD Cell.na

/-- Writing a cell of a row. -/
def setCol (r : Row) (c : String) (v : Cell) : Row := (c, v) :: r

theorem getCol_set_self (r : Row) (c : String) (v : Cell) :
    getCol (setCol r c v) c = v := by
  simp [getCol, setCol, List.lookup]

theorem getCol_set_ne (r : Row) (c c' : String) (v : Cell) (h : c' ≠ c) :
    getCol (setCol r c v) c' = getCol r c' := by
  have hbeq : (c' == c) = false := beq_eq_false_iff_ne.mpr h
  simp [getCol, setCol, List.lookup, hbeq]

/-- A data frame: a declared column list and the rows. -/
structure DataFrame where
  cols : List String
  rows : List Row
deriving DecidableEq

/-- Boolean-mask row filtering (df.loc of a comparison mask). -/
def filterRows (df : DataFrame) (p : Row → Bool) : DataFrame :=
  ⟨df.cols, df.rows.filter p⟩

/-- In-place column transformation (df[c] = f(df[c])). -/
def mapCol (df : DataFrame) (c : String) (f : Cell → Cell) : DataFrame :=
  ⟨df.cols, df.rows.map (fun r => setCol r c (f (getCol r c)))⟩

/-- Column assignment from a row function (df[c] = expr): replaces the
column in place when it exists and appends it to the schema otherwise. -/
def addCol (df : DataFrame) (c : String) (f : Row → Cell) : DataFrame :=
  ⟨if c ∈ df.cols then df.cols else df.cols ++ [c],
   df.rows.map (fun r => setCol r c (f r))⟩

/-- Column projection (df[[c1, ..., ck]]). -/
def selectCols (df : DataFrame) (cs : List String) : DataFrame :=
  ⟨cs, df.rows.map (fun r => cs.map (fun c => (c, getCol r c)))⟩

/-- df.rename(columns=...) for a single column name. -/
def renameCol (df : DataFrame) (oldc newc : String) : DataFrame :=
  ⟨df.cols.map (fun c => if c == oldc then newc else c),
   df.rows.map (fun r => r.map (fun p => (if p.1 == oldc then newc else p.1, p.2)))⟩

/-- df.head(n). -/
def headN (df : DataFrame) (n : Nat) : DataFrame := ⟨df.cols, df.rows.take n⟩

theorem mem_cols_addCol (df : DataFrame) (c x : String) (f : Row → Cell) :
    x ∈ (addCol df c f).cols ↔ x ∈ df.cols ∨ x = c := by
  unfold addCol
  by_cases h : c ∈ df.cols
  · rw [if_pos h]
    constructor
    · exact Or.inl
    · rintro (hx | rfl)
      · exact hx
      · exact h
  · rw [if_neg h]
    simp

/-! ### Numeric coercion (pandas to_numeric with errors="coerce") -/

/-- Value of an ASCII digit string. -/
def digitsVal (l : List Char) : Nat :=
  l.foldl (fun n c => n * 10 + (c.toNat - 48)) 0

/-- A model of the decimal strings pandas to_numeric accepts: optional
sign, integer digits, optional fractional digits.  Anything else parses as
missing.  (The claims never rest on an exotic numeric literal.) -/
def parseRat? (s : String) : Option Rat :=
  let l := trimChars s.data
  let signSplit : Bool × List Char :=
    match l with
    | '-' :: t => (true, t)
    | '+' :: t => (false, t)
    | t => (false, t)
  let l1 := signSplit.2
  let intPart := l1.takeWhile Char.isDigit
  let rest1 := l1.dropWhile Char.isDigit
  let fracSplit : List Char × List Char :=
    match rest1 with
    | '.' :: t => (t.takeWhile Char.isDigit, t.dropWhile Char.isDigit)
    | t => ([], t)
  if intPart.isEmpty && fracSplit.1.isEmpty then none
  else if !fracSplit.2.isEmpty then none
  else
    let v : Rat := (digitsVal intPart : Rat) +
      (digitsVal fracSplit.1 : Rat) / ((10 : Rat) ^ fracSplit.1.length)
    some (if signSplit.1 then -v else v)

/-- pandas.to_numeric(x, errors="coerce") on one cell: numbers stay,
missing stays missing, strings parse or degrade to missing. -/
def Cell.toNumeric : Cell → Cell
  | .num q => .num q
  | .na => .na
  | .str s =>
    match parseRat? s with
    | some q => .num q
    | none => .na

theorem toNumeric_shape (c : Cell) :
    (∃ q, Cell.toNumeric c = Cell.num q) ∨ Cell.toNumeric c = Cell.na := by
  cases c with
  | num q => exact Or.inl ⟨q, rfl⟩
  | na => exact Or.inr rfl
  | str s =>
    rcases h : parseRat? s with _ | q
    · refine Or.inr ?_
      simp [Cell.toNumeric, h]
    · refine Or.inl ⟨q, ?_⟩
      simp [Cell.toNumeric, h]

theorem toNumeric_not_na {c : Cell} (h : (Cell.toNumeric c).isNa = false) :
    ∃ q, Cell.toNumeric c = Cell.num q := by
  rcases toNumeric_shape c with hq | hna
  · exact hq
  · rw [hna] at h
    simp [Cell.isNa] at h

theorem toNumeric_idem (c : Cell) :
    Cell.toNumeric (Cell.toNumeric c) = Cell.toNumeric c := by
  rcases toNumeric_shape c with ⟨q, hq⟩ | hna
  · rw [hq]
    rfl
  · rw [hna]
    rfl

/-! ### Python-level string views of cells -/

/-- Python str() of a cell value, as the loader's astype(str) and apply
see it: NaN prints as "nan"; the float repr of a number is approximated by
the rational repr (no claim evaluates it on a numeric cell). -/
def pyStr : Cell → String
  | .str s => s
  | .num q => toString q
  | .na => "nan"

/-- astype(str).str.strip() applied to one cell. -/
def astypeStrStrip (c : Cell) : Cell :=
  .str (String.mk (trimChars (pyStr c).data))

/-- Series.apply(_canon_soc) applied to one cell value. -/
def canonCell (c : Cell) : Cell := .str (canonStr (pyStr c))

/-- Leading-segment test on character lists. -/
def isPrefixChars : List Char → List Char → Bool
  | [], _ => true
  | _ :: _, [] => false
  | a :: as, b :: bs => a == b && isPrefixChars as bs

/-- Substring containment on character lists (Python "in" / str.contains
with a plain, non-regex pattern). -/
def hasSub : List Char → List Char → Bool
  | [], needle => needle.isEmpty
  | a :: t, needle => isPrefixChars needle (a :: t) || hasSub t needle

/-- astype(str).str.lower() applied to one cell. -/
def lowerPy (c : Cell) : String := String.mk ((pyStr c).data.map Char.toLower)

/-- str.contains(needle, na=False) after astype(str): substring test. -/
def strContains (s needle : String) : Bool := hasSub s.data needle.data

/-! ### Sorting (pandas sort_values) -/

/-- Descending order on optional numeric keys with missing values last:
the order pandas sort_values(ascending=False) realizes (na_position
defaults to "last"). -/
def geKey : Option Rat → Option Rat → Bool
  | some x, some y => decide (y ≤ x)
  | some _, none => true
  | none, some _ => false
  | none, none => true

theorem geKey_total (a b : Option Rat) : geKey a b = true ∨ geKey b a = true := by
  cases a with
  | none => cases b <;> simp [geKey]
  | some x =>
    cases b with
    | none => simp [geKey]
    | some y =>
      simp only [geKey, decide_eq_true_eq]
      exact le_total y x

theorem geKey_trans {a b c : Option Rat} (h1 : geKey a b = true)
    (h2 : geKey b c = true) : geKey a c = true := by
  cases a <;> cases b <;> cases c <;> simp_all [geKey]
  exact le_trans h2 h1

/-- Insertion step of insertion sort by a boolean total preorder. -/
def insertLe {α : Type} (le : α → α → Bool) (a : α) : List α → List α
  | [] => [a]
  | b :: l => if le a b then a :: b :: l else b :: insertLe le a l

/-- Insertion sort by a boolean total preorder (models sort_values, whose
exact tie order the claims do not rely on). -/
def sortLe {α : Type} (le : α → α → Bool) : List α → List α
  | [] => []
  | a :: l => insertLe le a (sortLe le l)

theorem mem_insertLe {α : Type} (le : α → α → Bool) (a x : α) (l : List α) :
    x ∈ insertLe le a l ↔ x = a ∨ x ∈ l := by
  induction l with
  | nil => simp [insertLe]
  | cons b t ih =>
    by_cases h : le a b = true
    · simp only [insertLe, if_pos h, List.mem_cons]
    · simp only [insertLe, if_neg h, List.mem_cons, ih]
      tauto

theorem length_insertLe {α : Type} (le : α → α → Bool) (a : α) (l : List α) :
    (insertLe le a l).length = l.length + 1 := by
  induction l with
  | nil => rfl
  | cons b t ih =>
    by_cases h : le a b = true
    · simp [insertLe, if_pos h]
    · simp [insertLe, if_neg h, ih]

theorem mem_sortLe {α : Type} (le : α → α → Bool) (x : α) (l : List α) :
    x ∈ sortLe le l ↔ x ∈ l := by
  induction l with
  | nil => simp [sortLe]
  | cons b t ih => simp [sortLe, mem_insertLe, ih]

theorem length_sortLe {α : Type} (le : α → α → Bool) (l : List α) :
    (sortLe le l).length = l.length := by
  induction l with
  | nil => rfl
  | cons b t ih => simp [sortLe, length_insertLe, ih]

theorem pairwise_insertLe {α : Type} {le : α → α → Bool}
    (htot : ∀ a b, le a b = true ∨ le b a = true)
    (htrans : ∀ {a b c}, le a b = true → le b c = true → le a c = true)
    (a : α) {l : List α} (h : l.Pairwise (fun x y => le x y = true)) :
    (insertLe le a l).Pairwise (fun x y => le x y = true) := by
  induction l with
  | nil => simp [insertLe]
  | cons b t ih =>
    rcases List.pairwise_cons.mp h with ⟨hb, ht⟩
    by_cases hab : le a b = true
    · rw [show insertLe le a (b :: t) = a :: b :: t from if_pos hab]
      refine List.pairwise_cons.mpr ⟨?_, h⟩
      intro x hx
      rcases List.mem_cons.mp hx with rfl | hx
      · exact hab
      · exact htrans hab (hb x hx)
    · rw [show insertLe le a (b :: t) = b :: insertLe le a t from if_neg hab]
      have hba : le b a = true := by
        rcases htot a b with h1 | h1
        · exact absurd h1 hab
        · exact h1
      refine List.pairwise_cons.mpr ⟨?_, ih ht⟩
      intro x hx
      rcases (mem_insertLe le a x t).mp hx with rfl | hx
      · exact hba
      · exact hb x hx

theorem pairwise_sortLe {α : Type} {le : α → α → Bool}
    (htot : ∀ a b, le a b = true ∨ le b a = true)
    (htrans : ∀ {a b c}, le a b = true → le b c = true → le a c = true)
    (l : List α) : (sortLe le l).Pairwise (fun x y => le x y = true) := by
  induction l with
  | nil => simp [sortLe]
  | cons b t ih => exact pairwise_insertLe htot htrans b ih

/-- The numeric sort key of a row at a column. -/
def rowKey (c : String) (r : Row) : Option Rat := (getCol r c).toNumOpt

/-- df.sort_values(c, ascending=False): descending by the numeric key,
missing keys last. -/
def sortDesc (df : DataFrame) (c : String) : DataFrame :=
  ⟨df.cols, sortLe (fun a b => geKey (rowKey c a) (rowKey c b)) df.rows⟩

theorem pairwise_sortDesc (df : DataFrame) (c : String) :
    (sortDesc df c).rows.Pairwise
      (fun a b => geKey (rowKey c a) (rowKey c b) = true) := by
  show (sortLe (fun a b => geKey (rowKey c a) (rowKey c b)) df.rows).Pairwise _
  apply pairwise_sortLe
  · intro a b
    exact geKey_total _ _
  · intro a b c' h1 h2
    exact geKey_trans h1 h2

theorem mem_rows_sortDesc (df : DataFrame) (c : String) (r : Row) :
    r ∈ (sortDesc df c).rows ↔ r ∈ df.rows := mem_sortLe _ _ _

/-- Series.median of the non-missing values: midpoint of the sorted list
(mean of the two central values for an even count, none when empty). -/
def medianList (xs : List Rat) : Option Rat :=
  let s := sortLe (fun a b : Rat => decide (a ≤ b)) xs
  if s.length = 0 then none
  else if s.length % 2 = 1 then s.get? (s.length / 2)
  else
    match s.get? (s.length / 2 - 1), s.get? (s.length / 2) with
    | some a, some b => some ((a + b) / 2)
    | _, _ => none

/-! ### Table loading and normalization (load_table, src lines 61-106) -/

/-- The identifier/text columns coerced to trimmed strings (line 69). -/
def idCols : List String := ["OCC_CODE", "AREA", "AREA_TITLE", "O_GROUP", "NAICS_TITLE"]

/-- numeric_cols of load_table (lines 78-85). -/
def numeric_cols : List String :=
  ["TOT_EMP", "EMP_PRSE", "JOBS_1000",
   "LOC_QUOTIENT", "LOC_Q",
   "PCT_TOTAL", "PCT_RPT",
   "H_MEAN", "A_MEAN", "MEAN_PRSE",
   "H_PCT10", "H_PCT25", "H_MEDIAN", "H_PCT75", "H_PCT90",
   "A_PCT10", "A_PCT25", "A_MEDIAN", "A_PCT75", "A_PCT90"]

/-- Apply a per-cell transform to each listed column that is present. -/
def coerceCols (cs : List String) (f : Cell → Cell) (df : DataFrame) : DataFrame :=
  cs.foldl (fun d c => if c ∈ d.cols then mapCol d c f else d) df

/-- Lines 69-71: coerce code/title columns to trimmed strings. -/
def coerceIdCols (df : DataFrame) : DataFrame := coerceCols idCols astypeStrStrip df

/-- Lines 74-75: numeric mirror for AREA_TYPE. -/
def addAreaTypeNum (df : DataFrame) : DataFrame :=
  if "AREA_TYPE" ∈ df.cols then
    addCol df "AREA_TYPE_NUM" (fun r => Cell.toNumeric (getCol r "AREA_TYPE"))
  else df

/-- Lines 88-90: numeric coercions of the measure columns. -/
def coerceNumericCols (df : DataFrame) : DataFrame :=
  coerceCols numeric_cols Cell.toNumeric df

/-- Lines 93-94: LOC_QUOTIENT alias populated from LOC_Q. -/
def addLocQuotientAlias (df : DataFrame) : DataFrame :=
  if "LOC_Q" ∈ df.cols ∧ "LOC_QUOTIENT" ∉ df.cols then
    addCol df "LOC_QUOTIENT" (fun r => getCol r "LOC_Q")
  else df

/-- Lines 97-98: canonical SOC key column. -/
def addSocCanon (df : DataFrame) : DataFrame :=
  if "OCC_CODE" ∈ df.cols then
    addCol df "SOC_CANON" (fun r => canonCell (getCol r "OCC_CODE"))
  else df

/-- H_MEDIAN * 2080.0; the filled cells are numeric at this point of the
pipeline, the other constructors are untouched. -/
def mul2080 : Cell → Cell
  | .num q => .num (q * 2080)
  | c => c

/-- Lines 100-105: A_MEDIAN_ANNUAL starts as a copy of A_MEDIAN and, when
H_MEDIAN exists, rows with missing A_MEDIAN and present H_MEDIAN are
filled with H_MEDIAN * 2080.0. -/
def addAnnualMedian (df : DataFrame) : DataFrame :=
  if "A_MEDIAN" ∈ df.cols then
    addCol df "A_MEDIAN_ANNUAL" (fun r =>
      if "H_MEDIAN" ∈ df.cols then
        if (getCol r "A_MEDIAN").isNa && !(getCol r "H_MEDIAN").isNa then
          mul2080 (getCol r "H_MEDIAN")
        else getCol r "A_MEDIAN"
      else getCol r "A_MEDIAN")
  else df

/-- The whole normalization pipeline of load_table (lines 66-106), applied
to the raw frame the spreadsheet reader returns, in source order. -/
def normalizeTable (df : DataFrame) : DataFrame :=
  addAnnualMedian (addSocCanon (addLocQuotientAlias (coerceNumericCols
    (addAreaTypeNum (coerceIdCols df)))))

/-! ### Caches (lru_cache on load_table and national_crosswalk) -/

/-- The four known table kinds (DEFAULT_FILES keys, lines 25-30). -/
def kinds : List String := ["national", "state", "msa", "natsector"]

/-- The memoization state: the lru_cache of load_table (maxsize 8, never
evicting the four fixed kinds) and the maxsize-1 cache of
national_crosswalk, with build counters recording how often each
underlying computation actually ran. -/
structure Caches where
  tblCache : List (String × DataFrame)
  tblComputes : Nat
  xwalkCache : Option DataFrame
  xwalkComputes : Nat
deriving DecidableEq

/-- load_table (lines 61-106) with its cache made explicit; the spreadsheet
reader and path resolver collaborators are one oracle from kind to raw
frame.  An unknown kind raises ValueError (the error case), and errors are
never cached, exactly as lru_cache does not cache exceptions. -/
def load_table (read : String → DataFrame) (st : Caches) (kind : String) :
    Except String (DataFrame × Caches) :=
  match List.lookup kind st.tblCache with
  | some t => .ok (t, st)
  | none =>
    if kind ∈ kinds then
      .ok (normalizeTable (read kind),
        ⟨(kind, normalizeTable (read kind)) :: st.tblCache, st.tblComputes + 1,
         st.xwalkCache, st.xwalkComputes⟩)
    else .error ("Unknown table kind: " ++ kind)

/-- Lines 344-347: the body of national_crosswalk once the national table
is loaded: ensure a SOC_CANON column, then keep the detailed/broad/total
occupation groups. -/
def crosswalkOf (nat : DataFrame) : DataFrame :=
  let nat1 :=
    if "SOC_CANON" ∉ nat.cols ∧ "OCC_CODE" ∈ nat.cols then
      addCol nat "SOC_CANON" (fun r => canonCell (getCol r "OCC_CODE"))
    else nat
  if "O_GROUP" ∈ nat1.cols then
    filterRows nat1 (fun r =>
      (getCol r "O_GROUP" == Cell.str "detailed") ||
      (getCol r "O_GROUP" == Cell.str "broad") ||
      (getCol r "O_GROUP" == Cell.str "total"))
  else nat1

/-- national_crosswalk (lines 341-348) with its maxsize-1 cache made
explicit. -/
def national_crosswalk (read : String → DataFrame) (st : Caches) :
    Except String (DataFrame × Caches) :=
  match st.xwalkCache with
  | some t => .ok (t, st)
  | none =>
    match load_table read st "national" with
    | .error e => .error e
    | .ok (nat, st1) =>
      .ok (crosswalkOf nat,
        ⟨st1.tblCache, st1.tblComputes, some (crosswalkOf nat),
         st1.xwalkComputes + 1⟩)

/-! ### Query functions -/

/-- Lines 118-120 of us_median_wage: median of the non-missing A_MEDIAN
values, NaN (none) when the column is absent. -/
def usMedianFallback (nat : DataFrame) : Option Rat :=
  if "A_MEDIAN" ∈ nat.cols then
    medianList (nat.rows.filterMap (fun r => (getCol r "A_MEDIAN").toNumOpt))
  else none

/-- us_median_wage (lines 111-120), over the crosswalk frame the cached
national_crosswalk() call returns; none models the float NaN returns. -/
def us_median_wage (nat : DataFrame) : Option Rat :=
  match nat.rows.filter (fun r => getCol r "OCC_CODE" == Cell.str "00-0000") with
  | r :: _ =>
    if "A_MEDIAN" ∈ nat.cols then (getCol r "A_MEDIAN").toNumOpt
    else usMedianFallback nat
  | [] => usMedianFallback nat

/-- top_occupations_by_employment (lines 125-131), over the crosswalk
frame. -/
def top_occupations_by_employment (nat : DataFrame) (k : Nat) : DataFrame :=
  let df := filterRows nat (fun r => !(getCol r "OCC_CODE" == Cell.str "00-0000"))
  let df2 := if "TOT_EMP" ∈ df.cols then sortDesc df "TOT_EMP" else df
  headN (selectCols df2 ["OCC_CODE", "OCC_TITLE", "TOT_EMP", "A_MEDIAN", "A_MEAN"]) k

/-- The occupation filter of the geography queries: match the precomputed
SOC_CANON column when present, else canonicalize the raw OCC_CODE column
on the fly (lines 183-186 and 245-248). -/
def socFilter (df : DataFrame) (code : String) : DataFrame :=
  if "SOC_CANON" ∈ df.cols then
    filterRows df (fun r => getCol r "SOC_CANON" == Cell.str code)
  else
    filterRows df (fun r => canonCell (getCol r "OCC_CODE") == Cell.str code)

/-- The geography-level filter block both geography queries repeat
verbatim (lines 191-204 and 255-268): the numeric AREA_TYPE mirror when it
has any value, else substring matching on the textual AREA_TYPE, else no
filter at all. -/
def geoFilter (sub : DataFrame) (level : String) : DataFrame :=
  if "AREA_TYPE_NUM" ∈ sub.cols ∧
      sub.rows.any (fun r => !(getCol r "AREA_TYPE_NUM").isNa) then
    filterRows sub (fun r =>
      getCol r "AREA_TYPE_NUM" == Cell.num (if level == "state" then 2 else 4))
  else if "AREA_TYPE" ∈ sub.cols then
    if level == "state" then
      filterRows sub (fun r => strContains (lowerPy (getCol r "AREA_TYPE")) "state")
    else
      filterRows sub (fun r =>
        strContains (lowerPy (getCol r "AREA_TYPE")) "metro" ||
        strContains (lowerPy (getCol r "AREA_TYPE")) "metropolitan" ||
        strContains (lowerPy (getCol r "AREA_TYPE")) "micro" ||
        strContains (lowerPy (getCol r "AREA_TYPE")) "nonmetro")
  else sub

/-- The fixed empty schema top_geographies_for_occ returns (lines 188, 206
and 214). -/
def emptyGeo : DataFrame :=
  ⟨["AREA_TITLE", "A_MEDIAN", "TOT_EMP", "LOC_QUOTIENT"], []⟩

/-- The fixed empty schema employment_concentration_for_occ returns (its
local _empty helper, lines 238-239). -/
def emptyConc : DataFrame :=
  ⟨["AREA_TITLE", "LOC_QUOTIENT", "TOT_EMP", "A_MEDIAN"], []⟩

/-- Wage-column choice with the inline hourly fallback (lines 209-212 and
297-300): the chosen column name together with the frame, which gains the
temporary column in the hourly case. -/
def pickWageCol (sub : DataFrame) : Option (String × DataFrame) :=
  if "A_MEDIAN_ANNUAL" ∈ sub.cols then some ("A_MEDIAN_ANNUAL", sub)
  else if "A_MEDIAN" ∈ sub.cols then some ("A_MEDIAN", sub)
  else if "H_MEDIAN" ∈ sub.cols then
    some ("A_MEDIAN_TMP",
      addCol sub "A_MEDIAN_TMP" (fun r => mul2080 (Cell.toNumeric (getCol r "H_MEDIAN"))))
  else none

/-- Lines 217-228 of top_geographies_for_occ, once the wage column has
been chosen: re-coerce the wage column, drop its missing rows, sort
descending, project, truncate to top_n and rename the wage column. -/
def tgTail (wageCol : String) (sub3 : DataFrame) (top_n : Nat) : DataFrame :=
  let sub4 := mapCol sub3 wageCol Cell.toNumeric
  let sub5 := filterRows sub4 (fun r => !(getCol r wageCol).isNa)
  let sub6 := sortDesc sub5 wageCol
  let outCols := ["AREA_TITLE", wageCol]
    ++ (if "TOT_EMP" ∈ sub6.cols then ["TOT_EMP"] else [])
    ++ (if "LOC_QUOTIENT" ∈ sub6.cols then ["LOC_QUOTIENT"] else [])
  renameCol (headN (selectCols sub6 outCols) top_n) wageCol "A_MEDIAN"

/-- top_geographies_for_occ (lines 177-228).  The two Table Store entries
the level argument chooses between are passed explicitly. -/
def top_geographies_for_occ (stateTbl msaTbl : DataFrame)
    (occ_code level : String) (top_n : Nat) : DataFrame :=
  let df := if level == "state" then stateTbl else msaTbl
  let sub := socFilter df (canonStr occ_code)
  if sub.rows.isEmpty then emptyGeo
  else
    let sub2 := geoFilter sub level
    if sub2.rows.isEmpty then emptyGeo
    else
      match pickWageCol sub2 with
      | none => emptyGeo
      | some (wageCol, sub3) => tgTail wageCol sub3 top_n

/-- The national jobs-per-1000 scalar the LQ fallback reads from the
crosswalk (lines 280-284): first crosswalk row matching the canonical
code; NaN (none) when the column is absent or no row matches. -/
def natJobs1000 (nat : DataFrame) (code : String) : Option Rat :=
  let nat1 :=
    if "SOC_CANON" ∉ nat.cols then
      addCol nat "SOC_CANON" (fun r => canonCell (getCol r "OCC_CODE"))
    else nat
  match nat1.rows.filter (fun r => getCol r "SOC_CANON" == Cell.str code) with
  | [] => none
  | r :: _ =>
    if "JOBS_1000" ∈ nat1.cols then (Cell.toNumeric (getCol r "JOBS_1000")).toNumOpt
    else none

/-- Lines 292-312 of employment_concentration_for_occ, once a usable
LOC_QUOTIENT column exists: re-coerce it, drop its missing rows, sort
descending by it, pick a wage context column, project, truncate and
rename the wage column when it is not already named A_MEDIAN. -/
def ecTail (sub5 : DataFrame) (top_n : Nat) : DataFrame :=
  let sub6 := mapCol sub5 "LOC_QUOTIENT" Cell.toNumeric
  let sub7 := filterRows sub6 (fun r => !(getCol r "LOC_QUOTIENT").isNa)
  let sub8 := sortDesc sub7 "LOC_QUOTIENT"
  match pickWageCol sub8 with
  | some (wageCol, sub9) =>
    let outCols := ["AREA_TITLE", "LOC_QUOTIENT"]
      ++ (if "TOT_EMP" ∈ sub9.cols then ["TOT_EMP"] else [])
      ++ [wageCol]
    let out := headN (selectCols sub9 outCols) top_n
    if wageCol == "A_MEDIAN" then out else renameCol out wageCol "A_MEDIAN"
  | none =>
    let outCols := ["AREA_TITLE", "LOC_QUOTIENT"]
      ++ (if "TOT_EMP" ∈ sub8.cols then ["TOT_EMP"] else [])
    headN (selectCols sub8 outCols) top_n

/-- Lines 273-274 of employment_concentration_for_occ: populate the
LOC_QUOTIENT column from the coerced LOC_Q alias when only the alias
exists. -/
def ecAlias (sub2 : DataFrame) : DataFrame :=
  if "LOC_QUOTIENT" ∉ sub2.cols ∧ "LOC_Q" ∈ sub2.cols then
    addCol sub2 "LOC_QUOTIENT" (fun r => Cell.toNumeric (getCol r "LOC_Q"))
  else sub2

/-- Lines 275-276: re-coerce LOC_QUOTIENT when it exists. -/
def ecCoerce (sub3 : DataFrame) : DataFrame :=
  if "LOC_QUOTIENT" ∈ sub3.cols then mapCol sub3 "LOC_QUOTIENT" Cell.toNumeric else sub3

/-- Lines 279-286: when no LOC_QUOTIENT value exists at all, approximate
it as this region's jobs-per-1000 divided by the national jobs-per-1000
for the same occupation, provided the national value is present, positive,
and a JOBS_1000 column exists. -/
def ecFallback (nat : DataFrame) (code : String) (sub4 : DataFrame) : DataFrame :=
  if "LOC_QUOTIENT" ∉ sub4.cols ∨
      sub4.rows.all (fun r => (getCol r "LOC_QUOTIENT").isNa) then
    match natJobs1000 nat code with
    | some j =>
      if 0 < j ∧ "JOBS_1000" ∈ sub4.cols then
        addCol sub4 "LOC_QUOTIENT" (fun r =>
          match (Cell.toNumeric (getCol r "JOBS_1000")).toNumOpt with
          | some q => Cell.num (q / j)
          | none => Cell.na)
      else sub4
    | none => sub4
  else sub4

/-- employment_concentration_for_occ (lines 233-312).  The two Table Store
entries and the crosswalk frame are passed explicitly. -/
def employment_concentration_for_occ (stateTbl msaTbl nat : DataFrame)
    (occ_code level : String) (top_n : Nat) : DataFrame :=
  let df := if level == "state" then stateTbl else msaTbl
  let code := canonStr occ_code
  if "SOC_CANON" ∈ df.cols ∨ "OCC_CODE" ∈ df.cols then
    let sub := socFilter df code
    if sub.rows.isEmpty then emptyConc
    else
      let sub2 := geoFilter sub level
      if sub2.rows.isEmpty then emptyConc
      else
        let sub5 := ecFallback nat code (ecCoerce (ecAlias sub2))
        if "LOC_QUOTIENT" ∉ sub5.cols then emptyConc
        else ecTail sub5 top_n
  else emptyConc

/-- Series.sum(skipna=True) of a numeric column (line 327). -/
def sumCol (df : DataFrame) (c : String) : Rat :=
  df.rows.foldl (fun acc r =>
    match getCol r c with
    | .num q => acc + q
    | _ => acc) 0

/-- Fallback share value (row employment / total) * 100 (line 328); rows
with missing employment stay missing. -/
def shareDiv (c : Cell) (tot : Rat) : Cell :=
  match c with
  | .num e => .num (e / tot * 100)
  | _ => .na

/-- str.replace("Sector: ", "", regex=False) on one cell (line 333);
non-string cells become missing under the pandas .str accessor. -/
def stripSector (c : Cell) : Cell :=
  match c with
  | .str s => .str (s.replace "Sector: " "")
  | _ => .na

/-- industry_mix_for_occ (lines 317-336), over the loaded natsector frame.
The no-match branch returns the filtered frame itself (line 321). -/
def industry_mix_for_occ (natsector : DataFrame) (occ_code : String)
    (top_n : Nat) : DataFrame :=
  let sub := filterRows natsector (fun r => getCol r "OCC_CODE" == Cell.str occ_code)
  if sub.rows.isEmpty then sub
  else
    let sub2 :=
      if "PCT_TOTAL" ∈ sub.cols ∧ sub.rows.any (fun r => !(getCol r "PCT_TOTAL").isNa) then
        addCol sub "share_pct" (fun r => getCol r "PCT_TOTAL")
      else if "TOT_EMP" ∈ sub.cols ∧ sub.rows.any (fun r => !(getCol r "TOT_EMP").isNa) then
        addCol sub "share_pct" (fun r =>
          if sumCol sub "TOT_EMP" ≠ 0 then shareDiv (getCol r "TOT_EMP") (sumCol sub "TOT_EMP")
          else Cell.num 0)
      else addCol sub "share_pct" (fun _ => Cell.na)
    let sub3 :=
      if "NAICS_TITLE" ∈ sub2.cols then
        addCol sub2 "industry" (fun r => stripSector (getCol r "NAICS_TITLE"))
      else
        -- line 335: sub.get("NAICS", "").astype(str); with NAICS absent the
        -- Python expression itself fails, a path no claim exercises
        addCol sub2 "industry" (fun r => Cell.str (pyStr (getCol r "NAICS")))
    headN (selectCols (sortDesc sub3 "share_pct") ["industry", "share_pct"]) top_n

/-! ### Frame lemmas -/

theorem cell_eq_na {c : Cell} (h : c.isNa = true) : c = Cell.na := by
  cases c with
  | str s => simp [Cell.isNa] at h
  | num q => simp [Cell.isNa] at h
  | na => rfl

theorem getCol_proj (r : Row) (cs : List String) (c : String) (hc : c ∈ cs) :
    getCol (List.map (fun c0 => (c0, getCol r c0)) cs) c = getCol r c := by
  induction cs with
  | nil => simp at hc
  | cons d t ih =>
    simp only [List.map_cons]
    by_cases hdc : d = c
    · subst hdc
      simp [getCol, List.lookup]
    · have hbeq : (c == d) = false := beq_eq_false_iff_ne.mpr (fun h => hdc h.symm)
      have hstep : getCol ((d, getCol r d) :: List.map (fun c0 => (c0, getCol r c0)) t) c
          = getCol (List.map (fun c0 => (c0, getCol r c0)) t) c := by
        simp [getCol, List.lookup, hbeq]
      rw [hstep]
      exact ih (List.mem_of_ne_of_mem (fun h => hdc h.symm) hc)

theorem cols_coerceCols (cs : List String) (f : Cell → Cell) (df : DataFrame) :
    (coerceCols cs f df).cols = df.cols := by
  induction cs generalizing df with
  | nil => rfl
  | cons c t ih =>
    show (coerceCols t f (if c ∈ df.cols then mapCol df c f else df)).cols = df.cols
    rw [ih]
    by_cases h : c ∈ df.cols
    · rw [if_pos h]
      rfl
    · rw [if_neg h]

theorem mem_cols_stage_if (df : DataFrame) (P : Prop) [Decidable P]
    (c : String) (f : Row → Cell) (x : String) (hx : x ≠ c) :
    (x ∈ (if P then addCol df c f else df).cols) ↔ x ∈ df.cols := by
  by_cases h : P
  · rw [if_pos h, mem_cols_addCol]
    simp [hx]
  · rw [if_neg h]

/-! ### Claim C1 (corrected): empty-match schema of industry_mix_for_occ -/

/-- A concrete industry-sector frame exercising industry_mix_for_occ. -/
def natsectorEx : DataFrame :=
  ⟨["OCC_CODE", "NAICS_TITLE", "TOT_EMP", "PCT_TOTAL"],
   [[("OCC_CODE", Cell.str "11-1011"), ("NAICS_TITLE", Cell.str "Sector: Finance"),
     ("TOT_EMP", Cell.num 100), ("PCT_TOTAL", Cell.num 50)]]⟩

/-- C1 counterexample: for an occupation code with no exact match in the
industry-sector table, industry_mix_for_occ returns an empty result whose
columns are those of the source table, not the declared industry/share
schema the claim states. -/
theorem industry_mix_declared_schema_cex :
    (industry_mix_for_occ natsectorEx "99-9999" 10).rows = [] ∧
    "industry" ∉ (industry_mix_for_occ natsectorEx "99-9999" 10).cols ∧
    (industry_mix_for_occ natsectorEx "99-9999" 10).cols ≠ ["industry", "share_pct"] := by
  refine ⟨by decide, by decide, by decide⟩

/-- C1 (amended): for every occupation code with no exact match in the
industry-sector table, industry_mix_for_occ returns without raising an
empty result that keeps the source table's column schema (the filtered
frame itself), not the declared industry/share output schema. -/
theorem industry_mix_no_match_schema (df : DataFrame) (occ_code : String)
    (top_n : Nat) (hOcc : "OCC_CODE" ∈ df.cols)
    (h : ∀ r ∈ df.rows, (getCol r "OCC_CODE" == Cell.str occ_code) = false) :
    industry_mix_for_occ df occ_code top_n = ⟨df.cols, []⟩ := by
  unfold industry_mix_for_occ
  have hfilter : df.rows.filter (fun r => getCol r "OCC_CODE" == Cell.str occ_code) = [] := by
    rw [List.filter_eq_nil_iff]
    intro r hr
    simp [h r hr]
  simp [filterRows, hfilter]

/-- Witness for industry_mix_no_match_schema at a concrete frame and
unmatched code. -/
theorem industry_mix_no_match_schema_witness :
    ("OCC_CODE" ∈ natsectorEx.cols ∧
      ∀ r ∈ natsectorEx.rows, (getCol r "OCC_CODE" == Cell.str "99-9999") = false) ∧
    industry_mix_for_occ natsectorEx "99-9999" 3 = ⟨natsectorEx.cols, []⟩ :=
  ⟨⟨by decide, by decide⟩,
   industry_mix_no_match_schema natsectorEx "99-9999" 3 (by decide) (by decide)⟩

/-! ### Claim C9: memoization of load_table and national_crosswalk -/

/-- C9: a second load_table call with the same kind returns the cached
table unchanged together with an unchanged cache state (so the build
counter does not move: no recomputation), and a second national_crosswalk
call likewise returns the cached crosswalk with the state unchanged. -/
theorem cache_idempotent (read : String → DataFrame) (st st2 : Caches)
    (kind : String) (t t2 : DataFrame) (st' st2' : Caches)
    (h1 : load_table read st kind = .ok (t, st'))
    (h2 : national_crosswalk read st2 = .ok (t2, st2')) :
    load_table read st' kind = .ok (t, st') ∧
    national_crosswalk read st2' = .ok (t2, st2') := by
  constructor
  · cases hc : List.lookup kind st.tblCache with
    | none =>
      by_cases hk : kind ∈ kinds
      · simp only [load_table, hc, if_pos hk, Except.ok.injEq, Prod.mk.injEq] at h1
        obtain ⟨ha, hb⟩ := h1
        subst ha
        subst hb
        simp [load_table, List.lookup]
      · simp only [load_table, hc, if_neg hk] at h1
        exact absurd h1 (by simp)
    | some t0 =>
      simp only [load_table, hc, Except.ok.injEq, Prod.mk.injEq] at h1
      obtain ⟨ha, hb⟩ := h1
      subst ha
      subst hb
      simp [load_table, hc]
  · cases hx : st2.xwalkCache with
    | none =>
      cases hl : load_table read st2 "national" with
      | error e =>
        simp only [national_crosswalk, hx, hl] at h2
        exact absurd h2 (by simp)
      | ok p =>
        obtain ⟨nat, st1⟩ := p
        simp only [national_crosswalk, hx, hl, Except.ok.injEq, Prod.mk.injEq] at h2
        obtain ⟨ha, hb⟩ := h2
        subst ha
        subst hb
        simp [national_crosswalk]
    | some t0 =>
      simp only [national_crosswalk, hx, Except.ok.injEq, Prod.mk.injEq] at h2
      obtain ⟨ha, hb⟩ := h2
      subst ha
      subst hb
      simp [national_crosswalk, hx]

/-- A minuscule raw national frame for the cache witness. -/
def rawNatEx : DataFrame :=
  ⟨["OCC_CODE", "O_GROUP"],
   [[("OCC_CODE", Cell.str "00-0000"), ("O_GROUP", Cell.str "total")]]⟩

/-- The reader oracle of the cache witness. -/
def readEx : String → DataFrame := fun _ => rawNatEx

/-- The empty caches at process start. -/
def cachesEx0 : Caches := ⟨[], 0, none, 0⟩

/-- The normalized national table the first load builds. -/
def natTblEx : DataFrame := normalizeTable rawNatEx

/-- Cache state after the first load_table("national") call. -/
def cachesEx1 : Caches := ⟨[("national", natTblEx)], 1, none, 0⟩

/-- The crosswalk built from the cached national table. -/
def xwalkEx : DataFrame := crosswalkOf natTblEx

/-- Cache state after the first national_crosswalk() call. -/
def cachesEx2 : Caches := ⟨[("national", natTblEx)], 1, some xwalkEx, 1⟩

/-- Witness for cache_idempotent: a concrete first load and first
crosswalk build, then the second calls return the identical cached objects
with unchanged states. -/
theorem cache_idempotent_witness :
    load_table readEx cachesEx0 "national" = .ok (natTblEx, cachesEx1) ∧
    national_crosswalk readEx cachesEx1 = .ok (xwalkEx, cachesEx2) ∧
    load_table readEx cachesEx1 "national" = .ok (natTblEx, cachesEx1) ∧
    national_crosswalk readEx cachesEx2 = .ok (xwalkEx, cachesEx2) := by
  have h1 : load_table readEx cachesEx0 "national" = .ok (natTblEx, cachesEx1) := rfl
  have h2 : national_crosswalk readEx cachesEx1 = .ok (xwalkEx, cachesEx2) := rfl
  have h3 := cache_idempotent readEx cachesEx0 cachesEx1 "national" natTblEx xwalkEx
    cachesEx1 cachesEx2 h1 h2
  exact ⟨h1, h2, h3.1, h3.2⟩

/-! ### Claim C4: us_median_wage -/

/-- C4: whenever a crosswalk row carries occupation code 00-0000 and the
A_MEDIAN column exists, us_median_wage returns that (first such) row's
annual median, ignoring all other rows; with no such row it returns the
median of the non-missing annual medians across the crosswalk; and with no
A_MEDIAN column at all it returns NaN (none). -/
theorem us_median_wage_spec (nat : DataFrame) (hOcc : "OCC_CODE" ∈ nat.cols) :
    (∀ r rs, nat.rows.filter (fun r0 => getCol r0 "OCC_CODE" == Cell.str "00-0000") = r :: rs →
      "A_MEDIAN" ∈ nat.cols → us_median_wage nat = (getCol r "A_MEDIAN").toNumOpt) ∧
    (nat.rows.filter (fun r0 => getCol r0 "OCC_CODE" == Cell.str "00-0000") = [] →
      "A_MEDIAN" ∈ nat.cols →
      us_median_wage nat =
        medianList (nat.rows.filterMap (fun r0 => (getCol r0 "A_MEDIAN").toNumOpt))) ∧
    ("A_MEDIAN" ∉ nat.cols → us_median_wage nat = none) := by
  refine ⟨?_, ?_, ?_⟩
  · intro r rs hf hA
    simp only [us_median_wage, hf, if_pos hA]
  · intro hf hA
    simp only [us_median_wage, hf, usMedianFallback, if_pos hA]
  · intro hA
    cases hf : nat.rows.filter (fun r0 => getCol r0 "OCC_CODE" == Cell.str "00-0000") with
    | nil => simp only [us_median_wage, hf, usMedianFallback, if_neg hA]
    | cons r rs => simp only [us_median_wage, hf, if_neg hA, usMedianFallback]

/-- The C4 witness crosswalk: one 00-0000 row carrying annual median 48060
and one other row with a different median. -/
def xwalkWageEx : DataFrame :=
  ⟨["OCC_CODE", "A_MEDIAN"],
   [[("OCC_CODE", Cell.str "00-0000"), ("A_MEDIAN", Cell.num 48060)],
    [("OCC_CODE", Cell.str "11-1011"), ("A_MEDIAN", Cell.num 99999)]]⟩

/-- The aggregate row of the witness crosswalk. -/
def aggRowEx : Row := [("OCC_CODE", Cell.str "00-0000"), ("A_MEDIAN", Cell.num 48060)]

/-- Witness for us_median_wage_spec: the concrete crosswalk above yields
exactly 48060, ignoring the other row. -/
theorem us_median_wage_witness :
    ("OCC_CODE" ∈ xwalkWageEx.cols ∧
      xwalkWageEx.rows.filter (fun r0 => getCol r0 "OCC_CODE" == Cell.str "00-0000") =
        [aggRowEx] ∧
      "A_MEDIAN" ∈ xwalkWageEx.cols) ∧
    us_median_wage xwalkWageEx = some 48060 := by
  refine ⟨⟨by decide, by decide, by decide⟩, ?_⟩
  have h := (us_median_wage_spec xwalkWageEx (by decide)).1 aggRowEx [] (by decide) (by decide)
  rw [h]
  decide

/-! ### Claim C8: top_occupations_by_employment -/

/-- C8: top_occupations_by_employment returns at most k rows, never the
aggregate 00-0000 row, sorted non-increasing by total employment, and
projected to exactly the code/title/employment/median/mean columns. -/
theorem top_occupations_spec (nat : DataFrame) (k : Nat)
    (hcols : "OCC_CODE" ∈ nat.cols ∧ "OCC_TITLE" ∈ nat.cols ∧ "TOT_EMP" ∈ nat.cols ∧
      "A_MEDIAN" ∈ nat.cols ∧ "A_MEAN" ∈ nat.cols) :
    (top_occupations_by_employment nat k).rows.length ≤ k ∧
    (∀ r ∈ (top_occupations_by_employment nat k).rows,
      getCol r "OCC_CODE" ≠ Cell.str "00-0000") ∧
    (top_occupations_by_employment nat k).rows.Pairwise
      (fun a b => geKey (rowKey "TOT_EMP" a) (rowKey "TOT_EMP" b) = true) ∧
    (top_occupations_by_employment nat k).cols =
      ["OCC_CODE", "OCC_TITLE", "TOT_EMP", "A_MEDIAN", "A_MEAN"] := by
  obtain ⟨hO, hT, hE, hM1, hM2⟩ := hcols
  have hcond : "TOT_EMP" ∈ (filterRows nat
      (fun r => !(getCol r "OCC_CODE" == Cell.str "00-0000"))).cols := hE
  have hout : top_occupations_by_employment nat k =
      headN (selectCols (sortDesc (filterRows nat
        (fun r => !(getCol r "OCC_CODE" == Cell.str "00-0000"))) "TOT_EMP")
        ["OCC_CODE", "OCC_TITLE", "TOT_EMP", "A_MEDIAN", "A_MEAN"]) k := by
    show headN (selectCols (if "TOT_EMP" ∈ (filterRows nat
        (fun r => !(getCol r "OCC_CODE" == Cell.str "00-0000"))).cols then
        sortDesc (filterRows nat
          (fun r => !(getCol r "OCC_CODE" == Cell.str "00-0000"))) "TOT_EMP"
      else filterRows nat (fun r => !(getCol r "OCC_CODE" == Cell.str "00-0000")))
        ["OCC_CODE", "OCC_TITLE", "TOT_EMP", "A_MEDIAN", "A_MEAN"]) k = _
    rw [if_pos hcond]
  have hmem5 : "OCC_CODE" ∈ (["OCC_CODE", "OCC_TITLE", "TOT_EMP", "A_MEDIAN", "A_MEAN"] :
      List String) := by decide
  have hmemT : "TOT_EMP" ∈ (["OCC_CODE", "OCC_TITLE", "TOT_EMP", "A_MEDIAN", "A_MEAN"] :
      List String) := by decide
  refine ⟨?_, ?_, ?_, ?_⟩
  · rw [hout]
    exact List.length_take_le k _
  · rw [hout]
    intro r hr
    have hr' := List.mem_of_mem_take hr
    obtain ⟨r0, hr0, rfl⟩ := List.mem_map.mp hr'
    have hget := getCol_proj r0 ["OCC_CODE", "OCC_TITLE", "TOT_EMP", "A_MEDIAN", "A_MEAN"]
      "OCC_CODE" hmem5
    rw [hget]
    have hr0' := (mem_rows_sortDesc _ _ _).mp hr0
    have hp := List.of_mem_filter hr0'
    intro heq
    simp [heq] at hp
  · rw [hout]
    have base := pairwise_sortDesc (filterRows nat
      (fun r => !(getCol r "OCC_CODE" == Cell.str "00-0000"))) "TOT_EMP"
    show (((sortDesc _ "TOT_EMP").rows.map _).take k).Pairwise _
    rw [← List.map_take]
    refine List.pairwise_map.mpr ?_
    refine List.Pairwise.imp ?_ (base.sublist (List.take_sublist k _))
    intro a b hab
    have ea : rowKey "TOT_EMP" (List.map (fun c0 => (c0, getCol a c0))
        ["OCC_CODE", "OCC_TITLE", "TOT_EMP", "A_MEDIAN", "A_MEAN"]) = rowKey "TOT_EMP" a := by
      unfold rowKey
      rw [getCol_proj a _ "TOT_EMP" hmemT]
    have eb : rowKey "TOT_EMP" (List.map (fun c0 => (c0, getCol b c0))
        ["OCC_CODE", "OCC_TITLE", "TOT_EMP", "A_MEDIAN", "A_MEAN"]) = rowKey "TOT_EMP" b := by
      unfold rowKey
      rw [getCol_proj b _ "TOT_EMP" hmemT]
    rw [ea, eb]
    exact hab
  · rw [hout]
    rfl

/-- The C8 witness crosswalk: the aggregate row plus two detailed rows
with distinct employments. -/
def xwalkTopEx : DataFrame :=
  ⟨["OCC_CODE", "OCC_TITLE", "TOT_EMP", "A_MEDIAN", "A_MEAN"],
   [[("OCC_CODE", Cell.str "00-0000"), ("OCC_TITLE", Cell.str "All Occupations"),
     ("TOT_EMP", Cell.num 1000), ("A_MEDIAN", Cell.num 48060), ("A_MEAN", Cell.num 60000)],
    [("OCC_CODE", Cell.str "11-1011"), ("OCC_TITLE", Cell.str "Chief Executives"),
     ("TOT_EMP", Cell.num 200), ("A_MEDIAN", Cell.num 100000), ("A_MEAN", Cell.num 120000)],
    [("OCC_CODE", Cell.str "29-1141"), ("OCC_TITLE", Cell.str "Registered Nurses"),
     ("TOT_EMP", Cell.num 300), ("A_MEDIAN", Cell.num 80000), ("A_MEAN", Cell.num 90000)]]⟩

/-- Witness for top_occupations_spec on a concrete crosswalk. -/
theorem top_occupations_witness :
    ("OCC_CODE" ∈ xwalkTopEx.cols ∧ "OCC_TITLE" ∈ xwalkTopEx.cols ∧
      "TOT_EMP" ∈ xwalkTopEx.cols ∧ "A_MEDIAN" ∈ xwalkTopEx.cols ∧
      "A_MEAN" ∈ xwalkTopEx.cols) ∧
    (top_occupations_by_employment xwalkTopEx 2).rows.length ≤ 2 ∧
    (∀ r ∈ (top_occupations_by_employment xwalkTopEx 2).rows,
      getCol r "OCC_CODE" ≠ Cell.str "00-0000") ∧
    (top_occupations_by_employment xwalkTopEx 2).rows.Pairwise
      (fun a b => geKey (rowKey "TOT_EMP" a) (rowKey "TOT_EMP" b) = true) ∧
    (top_occupations_by_employment xwalkTopEx 2).cols =
      ["OCC_CODE", "OCC_TITLE", "TOT_EMP", "A_MEDIAN", "A_MEAN"] := by
  have h := top_occupations_spec xwalkTopEx 2 (by decide)
  exact ⟨by decide, h.1, h.2.1, h.2.2.1, h.2.2.2⟩

/-! ### Claim C10: non-state levels behave exactly like msa -/

/-- C10: for every level other than "state" (including values outside the
documented state/msa pair) both geography queries choose the msa table and
the msa geography filter: their results coincide with the level "msa"
results, and no error is raised (the functions are total). -/
theorem level_fallthrough_msa (stateTbl msaTbl nat : DataFrame)
    (occ_code level : String) (top_n : Nat) (h : level ≠ "state") :
    top_geographies_for_occ stateTbl msaTbl occ_code level top_n =
      top_geographies_for_occ stateTbl msaTbl occ_code "msa" top_n ∧
    employment_concentration_for_occ stateTbl msaTbl nat occ_code level top_n =
      employment_concentration_for_occ stateTbl msaTbl nat occ_code "msa" top_n := by
  have hb : (level == "state") = false := beq_eq_false_iff_ne.mpr h
  have hm : (("msa" : String) == "state") = false := by decide
  have hgeo : ∀ sub, geoFilter sub level = geoFilter sub "msa" := by
    intro sub
    unfold geoFilter
    rw [hb, hm]
  constructor
  · simp only [top_geographies_for_occ, hb, hm, hgeo]
  · simp only [employment_concentration_for_occ, hb, hm, hgeo]

/-- The state-level witness table: two state rows and one metro row for
one occupation. -/
def stTblEx : DataFrame :=
  ⟨["OCC_CODE", "SOC_CANON", "AREA_TITLE", "AREA_TYPE_NUM", "A_MEDIAN_ANNUAL", "TOT_EMP"],
   [[("OCC_CODE", Cell.str "11-1011"), ("SOC_CANON", Cell.str "11-1011"),
     ("AREA_TITLE", Cell.str "Alpha"), ("AREA_TYPE_NUM", Cell.num 2),
     ("A_MEDIAN_ANNUAL", Cell.num 100000), ("TOT_EMP", Cell.num 10)],
    [("OCC_CODE", Cell.str "11-1011"), ("SOC_CANON", Cell.str "11-1011"),
     ("AREA_TITLE", Cell.str "Beta"), ("AREA_TYPE_NUM", Cell.num 2),
     ("A_MEDIAN_ANNUAL", Cell.num 120000), ("TOT_EMP", Cell.num 20)],
    [("OCC_CODE", Cell.str "11-1011"), ("SOC_CANON", Cell.str "11-1011"),
     ("AREA_TITLE", Cell.str "Gamma"), ("AREA_TYPE_NUM", Cell.num 4),
     ("A_MEDIAN_ANNUAL", Cell.num 90000), ("TOT_EMP", Cell.num 5)]]⟩

/-- The msa-level witness table. -/
def msTblEx : DataFrame :=
  ⟨["OCC_CODE", "SOC_CANON", "AREA_TITLE", "AREA_TYPE_NUM", "A_MEDIAN_ANNUAL"],
   [[("OCC_CODE", Cell.str "11-1011"), ("SOC_CANON", Cell.str "11-1011"),
     ("AREA_TITLE", Cell.str "Metroville"), ("AREA_TYPE_NUM", Cell.num 4),
     ("A_MEDIAN_ANNUAL", Cell.num 95000)]]⟩

/-- Witness for level_fallthrough_msa at the undocumented level value
"county". -/
theorem level_fallthrough_msa_witness :
    ("county" : String) ≠ "state" ∧
    top_geographies_for_occ stTblEx msTblEx "11-1011" "county" 2 =
      top_geographies_for_occ stTblEx msTblEx "11-1011" "msa" 2 ∧
    employment_concentration_for_occ stTblEx msTblEx xwalkWageEx "11-1011" "county" 2 =
      employment_concentration_for_occ stTblEx msTblEx xwalkWageEx "11-1011" "msa" 2 := by
  have h := level_fallthrough_msa stTblEx msTblEx xwalkWageEx "11-1011" "county" 2 (by decide)
  exact ⟨by decide, h.1, h.2⟩

/-! ### Claim C5: the derived annual-median-with-fallback column -/

theorem mem_cols_d5 (df : DataFrame) (x : String)
    (hx1 : x ≠ "AREA_TYPE_NUM") (hx2 : x ≠ "LOC_QUOTIENT") (hx3 : x ≠ "SOC_CANON") :
    (x ∈ (addSocCanon (addLocQuotientAlias (coerceNumericCols
      (addAreaTypeNum (coerceIdCols df))))).cols) ↔ x ∈ df.cols := by
  have h1 : ∀ d : DataFrame, (x ∈ (addSocCanon d).cols) ↔ x ∈ d.cols := by
    intro d
    unfold addSocCanon
    exact mem_cols_stage_if d _ _ _ x hx3
  have h2 : ∀ d : DataFrame, (x ∈ (addLocQuotientAlias d).cols) ↔ x ∈ d.cols := by
    intro d
    unfold addLocQuotientAlias
    exact mem_cols_stage_if d _ _ _ x hx2
  have h3 : ∀ d : DataFrame, (x ∈ (addAreaTypeNum d).cols) ↔ x ∈ d.cols := by
    intro d
    unfold addAreaTypeNum
    exact mem_cols_stage_if d _ _ _ x hx1
  rw [h1, h2,
    show (coerceNumericCols (addAreaTypeNum (coerceIdCols df))).cols
      = (addAreaTypeNum (coerceIdCols df)).cols from cols_coerceCols _ _ _,
    h3,
    show (coerceIdCols df).cols = df.cols from cols_coerceCols _ _ _]

/-- C5: in every loaded table carrying the derived annual-median column
(the source has A_MEDIAN), each row's A_MEDIAN_ANNUAL value equals its
A_MEDIAN when that is present, else its H_MEDIAN times 2080.0 when the
hourly column exists and that value is present, else missing. -/
theorem annual_median_fallback (df : DataFrame) (hA : "A_MEDIAN" ∈ df.cols) :
    ∀ r ∈ (normalizeTable df).rows,
      getCol r "A_MEDIAN_ANNUAL" =
        (if (getCol r "A_MEDIAN").isNa = false then getCol r "A_MEDIAN"
         else if "H_MEDIAN" ∈ df.cols ∧ (getCol r "H_MEDIAN").isNa = false then
           mul2080 (getCol r "H_MEDIAN")
         else Cell.na) := by
  intro r hr
  have hA5 : "A_MEDIAN" ∈ (addSocCanon (addLocQuotientAlias (coerceNumericCols
      (addAreaTypeNum (coerceIdCols df))))).cols :=
    (mem_cols_d5 df "A_MEDIAN" (by decide) (by decide) (by decide)).mpr hA
  have hH5 : ("H_MEDIAN" ∈ (addSocCanon (addLocQuotientAlias (coerceNumericCols
      (addAreaTypeNum (coerceIdCols df))))).cols) ↔ "H_MEDIAN" ∈ df.cols :=
    mem_cols_d5 df "H_MEDIAN" (by decide) (by decide) (by decide)
  rw [show normalizeTable df = addAnnualMedian (addSocCanon (addLocQuotientAlias
      (coerceNumericCols (addAreaTypeNum (coerceIdCols df))))) from rfl] at hr
  generalize hd : addSocCanon (addLocQuotientAlias (coerceNumericCols
    (addAreaTypeNum (coerceIdCols df)))) = d5 at hr hA5 hH5
  rw [addAnnualMedian, if_pos hA5] at hr
  obtain ⟨r0, hr0, rfl⟩ := List.mem_map.mp hr
  rw [getCol_set_self,
    getCol_set_ne r0 "A_MEDIAN_ANNUAL" "A_MEDIAN" _ (by decide),
    getCol_set_ne r0 "A_MEDIAN_ANNUAL" "H_MEDIAN" _ (by decide)]
  beta_reduce
  by_cases hH : "H_MEDIAN" ∈ df.cols
  · rw [if_pos (hH5.mpr hH)]
    by_cases ha : (getCol r0 "A_MEDIAN").isNa
    · rw [cell_eq_na ha]
      by_cases hh : (getCol r0 "H_MEDIAN").isNa
      · rw [cell_eq_na hh]
        simp [Cell.isNa, mul2080, hH]
      · simp [Cell.isNa, hh, hH]
    · have ha' : (getCol r0 "A_MEDIAN").isNa = false := by simpa using ha
      simp [ha']
  · rw [if_neg (fun hc => hH (hH5.mp hc))]
    by_cases ha : (getCol r0 "A_MEDIAN").isNa
    · rw [cell_eq_na ha]
      simp [Cell.isNa, hH]
    · have ha' : (getCol r0 "A_MEDIAN").isNa = false := by simpa using ha
      simp [ha']

/-- The C5 witness raw table: one row with A_MEDIAN missing and hourly
median 25. -/
def rawWageEx : DataFrame :=
  ⟨["OCC_CODE", "A_MEDIAN", "H_MEDIAN"],
   [[("OCC_CODE", Cell.str "11-1011"), ("A_MEDIAN", Cell.na), ("H_MEDIAN", Cell.num 25)]]⟩

/-- Witness for annual_median_fallback: the loaded row gets 25 times 2080
equals 52000 in the derived column. -/
theorem annual_median_fallback_witness :
    "A_MEDIAN" ∈ rawWageEx.cols ∧
    (∀ r ∈ (normalizeTable rawWageEx).rows,
      getCol r "A_MEDIAN_ANNUAL" =
        (if (getCol r "A_MEDIAN").isNa = false then getCol r "A_MEDIAN"
         else if "H_MEDIAN" ∈ rawWageEx.cols ∧ (getCol r "H_MEDIAN").isNa = false then
           mul2080 (getCol r "H_MEDIAN")
         else Cell.na)) ∧
    (∀ r ∈ (normalizeTable rawWageEx).rows, getCol r "A_MEDIAN_ANNUAL" = Cell.num 52000) := by
  have hmain := annual_median_fallback rawWageEx (by decide)
  refine ⟨by decide, hmain, ?_⟩
  have hA : ∀ r ∈ (normalizeTable rawWageEx).rows, getCol r "A_MEDIAN" = Cell.na := by
    decide
  have hH : ∀ r ∈ (normalizeTable rawWageEx).rows, getCol r "H_MEDIAN" = Cell.num 25 := by
    decide
  have hmem : "H_MEDIAN" ∈ rawWageEx.cols := by decide
  intro r hr
  rw [hmain r hr, hA r hr, hH r hr]
  simp [Cell.isNa, mul2080, hmem]
  norm_num

/-! ### Claim C6: top_geographies_for_occ at level state -/

theorem pairwise_sortLe_key {α : Type} (k : α → Option Rat) (l : List α) :
    (sortLe (fun a b => geKey (k a) (k b)) l).Pairwise
      (fun a b => geKey (k a) (k b) = true) := by
  apply pairwise_sortLe
  · intro a b
    exact geKey_total _ _
  · intro a b c' h1 h2
    exact geKey_trans h1 h2

theorem pickWageCol_spec {s : DataFrame} {w : String} {s' : DataFrame}
    (h : pickWageCol s = some (w, s')) :
    (w = "A_MEDIAN_ANNUAL" ∨ w = "A_MEDIAN" ∨ w = "A_MEDIAN_TMP") ∧
    ∀ r' ∈ s'.rows, ∃ r ∈ s.rows, ∀ c, c ≠ "A_MEDIAN_TMP" → getCol r' c = getCol r c := by
  unfold pickWageCol at h
  by_cases h1 : "A_MEDIAN_ANNUAL" ∈ s.cols
  · rw [if_pos h1] at h
    injection h with h'
    injection h' with hw hs
    subst hw
    subst hs
    refine ⟨Or.inl rfl, ?_⟩
    intro r' hr'
    exact ⟨r', hr', fun c hc => rfl⟩
  · rw [if_neg h1] at h
    by_cases h2 : "A_MEDIAN" ∈ s.cols
    · rw [if_pos h2] at h
      injection h with h'
      injection h' with hw hs
      subst hw
      subst hs
      refine ⟨Or.inr (Or.inl rfl), ?_⟩
      intro r' hr'
      exact ⟨r', hr', fun c hc => rfl⟩
    · rw [if_neg h2] at h
      by_cases h3 : "H_MEDIAN" ∈ s.cols
      · rw [if_pos h3] at h
        injection h with h'
        injection h' with hw hs
        subst hw
        subst hs
        refine ⟨Or.inr (Or.inr rfl), ?_⟩
        intro r' hr'
        obtain ⟨r, hrr, rfl⟩ := List.mem_map.mp hr'
        exact ⟨r, hrr, fun c hc => getCol_set_ne r "A_MEDIAN_TMP" c _ hc⟩
      · rw [if_neg h3] at h
        exact absurd h (by simp)

theorem getCol_projRen (rS : Row) (w : String) (rest : List String)
    (hwa : ("AREA_TITLE" == w) = false) :
    getCol ((("AREA_TITLE" :: w :: rest).map (fun c => (c, getCol rS c))).map
      (fun p => (if p.1 == w then "A_MEDIAN" else p.1, p.2))) "AREA_TITLE"
      = getCol rS "AREA_TITLE" ∧
    getCol ((("AREA_TITLE" :: w :: rest).map (fun c => (c, getCol rS c))).map
      (fun p => (if p.1 == w then "A_MEDIAN" else p.1, p.2))) "A_MEDIAN"
      = getCol rS w := by
  constructor <;> simp [getCol, List.lookup, hwa]

/-- Facts about the tail pipeline of top_geographies_for_occ: at most
top_n rows; each output row comes from an input row, carries its
AREA_TITLE, and carries its coerced, non-missing wage value under the
A_MEDIAN output name; and the rows are sorted non-increasing by that
wage. -/
theorem tgTail_out (w : String) (s : DataFrame) (n : Nat) (hwa : w ≠ "AREA_TITLE") :
    (tgTail w s n).rows.length ≤ n ∧
    (∀ rOut ∈ (tgTail w s n).rows, ∃ rS ∈ s.rows,
      getCol rOut "AREA_TITLE" = getCol rS "AREA_TITLE" ∧
      getCol rOut "A_MEDIAN" = Cell.toNumeric (getCol rS w) ∧
      (Cell.toNumeric (getCol rS w)).isNa = false) ∧
    (tgTail w s n).rows.Pairwise
      (fun a b => geKey (rowKey "A_MEDIAN" a) (rowKey "A_MEDIAN" b) = true) := by
  have hwb : ("AREA_TITLE" == w) = false := beq_eq_false_iff_ne.mpr (Ne.symm hwa)
  have hrows : (tgTail w s n).rows =
      ((sortLe (fun a b => geKey (rowKey w a) (rowKey w b))
        ((s.rows.map (fun r => setCol r w (Cell.toNumeric (getCol r w)))).filter
          (fun r => !(getCol r w).isNa))).take n).map
        (fun rS => ((("AREA_TITLE" :: w :: ((if "TOT_EMP" ∈ s.cols then ["TOT_EMP"] else [])
            ++ (if "LOC_QUOTIENT" ∈ s.cols then ["LOC_QUOTIENT"] else []))).map
          (fun c => (c, getCol rS c))).map
          (fun p => (if p.1 == w then "A_MEDIAN" else p.1, p.2)))) := by
    have h0 : (tgTail w s n).rows =
        (((sortLe (fun a b => geKey (rowKey w a) (rowKey w b))
            ((s.rows.map (fun r => setCol r w (Cell.toNumeric (getCol r w)))).filter
              (fun r => !(getCol r w).isNa))).map
          (fun rS => ("AREA_TITLE" :: w :: ((if "TOT_EMP" ∈ s.cols then ["TOT_EMP"] else [])
              ++ (if "LOC_QUOTIENT" ∈ s.cols then ["LOC_QUOTIENT"] else []))).map
            (fun c => (c, getCol rS c)))).take n).map
          (fun r => r.map (fun p => (if p.1 == w then "A_MEDIAN" else p.1, p.2))) := rfl
    rw [h0, ← List.map_take, List.map_map]
    rfl
  refine ⟨?_, ?_, ?_⟩
  · rw [hrows, List.length_map]
    exact List.length_take_le _ _
  · rw [hrows]
    intro rOut hrOut
    obtain ⟨rS, hS, rfl⟩ := List.mem_map.mp hrOut
    have hS2 := (mem_sortLe _ _ _).mp (List.mem_of_mem_take hS)
    obtain ⟨hS3, hpval⟩ := List.mem_filter.mp hS2
    obtain ⟨r, hr, rfl⟩ := List.mem_map.mp hS3
    have hAT : getCol (setCol r w (Cell.toNumeric (getCol r w))) "AREA_TITLE"
        = getCol r "AREA_TITLE" := getCol_set_ne r w "AREA_TITLE" _ (Ne.symm hwa)
    have hW : getCol (setCol r w (Cell.toNumeric (getCol r w))) w
        = Cell.toNumeric (getCol r w) := getCol_set_self r w _
    have hcols := getCol_projRen (setCol r w (Cell.toNumeric (getCol r w))) w
      ((if "TOT_EMP" ∈ s.cols then ["TOT_EMP"] else [])
        ++ (if "LOC_QUOTIENT" ∈ s.cols then ["LOC_QUOTIENT"] else [])) hwb
    refine ⟨r, hr, ?_, ?_, ?_⟩
    · rw [hcols.1, hAT]
    · rw [hcols.2, hW]
    · rw [hW] at hpval
      simpa using hpval
  · rw [hrows]
    refine List.pairwise_map.mpr ?_
    have base := (pairwise_sortLe_key (fun r => rowKey w r)
      ((s.rows.map (fun r => setCol r w (Cell.toNumeric (getCol r w)))).filter
        (fun r => !(getCol r w).isNa))).sublist (List.take_sublist n _)
    have key : ∀ r0 : Row, rowKey "A_MEDIAN"
        ((("AREA_TITLE" :: w :: ((if "TOT_EMP" ∈ s.cols then ["TOT_EMP"] else [])
          ++ (if "LOC_QUOTIENT" ∈ s.cols then ["LOC_QUOTIENT"] else []))).map
          (fun c => (c, getCol r0 c))).map
          (fun p => (if p.1 == w then "A_MEDIAN" else p.1, p.2))) = rowKey w r0 := by
      intro r0
      unfold rowKey
      rw [(getCol_projRen r0 w _ hwb).2]
    refine base.imp ?_
    intro a b hab
    rw [key, key]
    exact hab

theorem geoFilter_state_areaTypeNum (sub : DataFrame)
    (h : "AREA_TYPE_NUM" ∈ sub.cols ∧
      sub.rows.any (fun r => !(getCol r "AREA_TYPE_NUM").isNa) = true) :
    ∀ r ∈ (geoFilter sub "state").rows, getCol r "AREA_TYPE_NUM" = Cell.num 2 := by
  intro r hr
  rw [geoFilter, if_pos h] at hr
  have hp := List.of_mem_filter hr
  simpa using hp

theorem tg_state_eq (stateTbl msaTbl : DataFrame) (occ_code : String) (top_n : Nat) :
    top_geographies_for_occ stateTbl msaTbl occ_code "state" top_n =
      (if (socFilter stateTbl (canonStr occ_code)).rows.isEmpty then emptyGeo
       else if (geoFilter (socFilter stateTbl (canonStr occ_code)) "state").rows.isEmpty then
         emptyGeo
       else
         match pickWageCol (geoFilter (socFilter stateTbl (canonStr occ_code)) "state") with
         | none => emptyGeo
         | some (wageCol, sub3) => tgTail wageCol sub3 top_n) := rfl

/-- C6: at level state, top_geographies_for_occ returns at most top_n
rows; when the numeric area-type mirror is present with any value, every
geography-filtered row has AREA_TYPE_NUM 2 (the state code); every
returned row carries the AREA_TITLE of a geography-filtered row; no
returned row has a missing wage (each carries a numeric A_MEDIAN value);
the rows are sorted non-increasing by the selected wage column; and
whenever a filter stage yields no rows or no usable wage column exists the
fixed-schema empty result is returned. -/
theorem top_geographies_state_spec (stateTbl msaTbl : DataFrame)
    (occ_code : String) (top_n : Nat) :
    (top_geographies_for_occ stateTbl msaTbl occ_code "state" top_n).rows.length ≤ top_n ∧
    (("AREA_TYPE_NUM" ∈ (socFilter stateTbl (canonStr occ_code)).cols ∧
        (socFilter stateTbl (canonStr occ_code)).rows.any
          (fun r => !(getCol r "AREA_TYPE_NUM").isNa) = true) →
      ∀ r ∈ (geoFilter (socFilter stateTbl (canonStr occ_code)) "state").rows,
        getCol r "AREA_TYPE_NUM" = Cell.num 2) ∧
    (∀ rOut ∈ (top_geographies_for_occ stateTbl msaTbl occ_code "state" top_n).rows,
      ∃ r0 ∈ (geoFilter (socFilter stateTbl (canonStr occ_code)) "state").rows,
        getCol rOut "AREA_TITLE" = getCol r0 "AREA_TITLE") ∧
    (∀ rOut ∈ (top_geographies_for_occ stateTbl msaTbl occ_code "state" top_n).rows,
      ∃ q : Rat, getCol rOut "A_MEDIAN" = Cell.num q) ∧
    (top_geographies_for_occ stateTbl msaTbl occ_code "state" top_n).rows.Pairwise
      (fun a b => geKey (rowKey "A_MEDIAN" a) (rowKey "A_MEDIAN" b) = true) ∧
    (((socFilter stateTbl (canonStr occ_code)).rows = [] ∨
      (geoFilter (socFilter stateTbl (canonStr occ_code)) "state").rows = [] ∨
      ("A_MEDIAN_ANNUAL" ∉ (geoFilter (socFilter stateTbl (canonStr occ_code)) "state").cols ∧
       "A_MEDIAN" ∉ (geoFilter (socFilter stateTbl (canonStr occ_code)) "state").cols ∧
       "H_MEDIAN" ∉ (geoFilter (socFilter stateTbl (canonStr occ_code)) "state").cols)) →
      top_geographies_for_occ stateTbl msaTbl occ_code "state" top_n = emptyGeo) := by
  have hcases : top_geographies_for_occ stateTbl msaTbl occ_code "state" top_n = emptyGeo ∨
      ∃ w s3, pickWageCol (geoFilter (socFilter stateTbl (canonStr occ_code)) "state")
          = some (w, s3) ∧
        top_geographies_for_occ stateTbl msaTbl occ_code "state" top_n = tgTail w s3 top_n := by
    rw [tg_state_eq]
    by_cases h0 : (socFilter stateTbl (canonStr occ_code)).rows.isEmpty
    · rw [if_pos h0]
      exact Or.inl rfl
    · rw [if_neg h0]
      by_cases hg : (geoFilter (socFilter stateTbl (canonStr occ_code)) "state").rows.isEmpty
      · rw [if_pos hg]
        exact Or.inl rfl
      · rw [if_neg hg]
        cases hp : pickWageCol (geoFilter (socFilter stateTbl (canonStr occ_code)) "state") with
        | none => exact Or.inl rfl
        | some p =>
          obtain ⟨w, s3⟩ := p
          exact Or.inr ⟨w, s3, rfl, rfl⟩
  refine ⟨?_, geoFilter_state_areaTypeNum _, ?_, ?_, ?_, ?_⟩
  · rcases hcases with h | ⟨w, s3, hp, h⟩
    · rw [h]
      exact Nat.zero_le top_n
    · rw [h]
      have hwa : w ≠ "AREA_TITLE" := by
        rcases (pickWageCol_spec hp).1 with rfl | rfl | rfl <;> decide
      exact (tgTail_out w s3 top_n hwa).1
  · rcases hcases with h | ⟨w, s3, hp, h⟩
    · rw [h]
      intro rOut hrOut
      exact absurd hrOut (by simp [emptyGeo])
    · rw [h]
      have hwa : w ≠ "AREA_TITLE" := by
        rcases (pickWageCol_spec hp).1 with rfl | rfl | rfl <;> decide
      intro rOut hrOut
      obtain ⟨rS, hrS, hAT, hAM, hNa⟩ := (tgTail_out w s3 top_n hwa).2.1 rOut hrOut
      obtain ⟨r0, hr0, hpres⟩ := (pickWageCol_spec hp).2 rS hrS
      exact ⟨r0, hr0, by rw [hAT, hpres "AREA_TITLE" (by decide)]⟩
  · rcases hcases with h | ⟨w, s3, hp, h⟩
    · rw [h]
      intro rOut hrOut
      exact absurd hrOut (by simp [emptyGeo])
    · rw [h]
      have hwa : w ≠ "AREA_TITLE" := by
        rcases (pickWageCol_spec hp).1 with rfl | rfl | rfl <;> decide
      intro rOut hrOut
      obtain ⟨rS, hrS, hAT, hAM, hNa⟩ := (tgTail_out w s3 top_n hwa).2.1 rOut hrOut
      obtain ⟨q, hq⟩ := toNumeric_not_na hNa
      exact ⟨q, by rw [hAM, hq]⟩
  · rcases hcases with h | ⟨w, s3, hp, h⟩
    · rw [h]
      exact List.Pairwise.nil
    · rw [h]
      have hwa : w ≠ "AREA_TITLE" := by
        rcases (pickWageCol_spec hp).1 with rfl | rfl | rfl <;> decide
      exact (tgTail_out w s3 top_n hwa).2.2
  · intro hdisj
    rw [tg_state_eq]
    rcases hdisj with h | h | ⟨h1, h2, h3⟩
    · rw [if_pos (List.isEmpty_iff.mpr h)]
    · by_cases h0 : (socFilter stateTbl (canonStr occ_code)).rows.isEmpty
      · rw [if_pos h0]
      · rw [if_neg h0, if_pos (List.isEmpty_iff.mpr h)]
    · have hpick : pickWageCol (geoFilter (socFilter stateTbl (canonStr occ_code)) "state")
          = none := by
        unfold pickWageCol
        rw [if_neg h1, if_neg h2, if_neg h3]
      by_cases h0 : (socFilter stateTbl (canonStr occ_code)).rows.isEmpty
      · rw [if_pos h0]
      · rw [if_neg h0]
        by_cases hg : (geoFilter (socFilter stateTbl (canonStr occ_code)) "state").rows.isEmpty
        · rw [if_pos hg]
        · rw [if_neg hg, hpick]

/-- Witness for top_geographies_state_spec: a concrete state table with a
usable numeric area-type mirror, and a no-match code exercising the
empty-result clause. -/
theorem top_geographies_state_witness :
    ("AREA_TYPE_NUM" ∈ (socFilter stTblEx (canonStr "11-1011")).cols ∧
      (socFilter stTblEx (canonStr "11-1011")).rows.any
        (fun r => !(getCol r "AREA_TYPE_NUM").isNa) = true) ∧
    (∀ r ∈ (geoFilter (socFilter stTblEx (canonStr "11-1011")) "state").rows,
      getCol r "AREA_TYPE_NUM" = Cell.num 2) ∧
    (top_geographies_for_occ stTblEx msTblEx "11-1011" "state" 1).rows.length ≤ 1 ∧
    (socFilter stTblEx (canonStr "99-9999")).rows = [] ∧
    top_geographies_for_occ stTblEx msTblEx "99-9999" "state" 1 = emptyGeo := by
  have t1 := top_geographies_state_spec stTblEx msTblEx "11-1011" 1
  have t2 := top_geographies_state_spec stTblEx msTblEx "99-9999" 1
  exact ⟨by decide, t1.2.1 (by decide), t1.1, by decide,
    t2.2.2.2.2.2 (Or.inl (by decide))⟩

/-! ### Claim C7: the jobs-per-1000 fallback of employment concentration -/

theorem toNumOpt_some {c : Cell} {q : Rat} (h : c.toNumOpt = some q) : c = Cell.num q := by
  cases c <;> simp [Cell.toNumOpt] at h <;> simp [h]

theorem getCol_renameRow (r : Row) (w c : String)
    (hcw : c ≠ w) (hcA : c ≠ "A_MEDIAN") :
    getCol (r.map (fun p => (if p.1 == w then "A_MEDIAN" else p.1, p.2))) c = getCol r c := by
  induction r with
  | nil => rfl
  | cons p t ih =>
    obtain ⟨k, v⟩ := p
    simp only [List.map_cons]
    by_cases hkw : (k == w) = true
    · rw [if_pos hkw]
      have hne1 : (c == "A_MEDIAN") = false := beq_eq_false_iff_ne.mpr hcA
      have hk : k = w := eq_of_beq hkw
      have hne2 : (c == k) = false := beq_eq_false_iff_ne.mpr (hk ▸ hcw)
      simp [getCol, List.lookup, hne1, hne2] at ih ⊢
      exact ih
    · rw [if_neg hkw]
      by_cases hck : (c == k) = true
      · simp [getCol, List.lookup, hck]
      · simp [getCol, List.lookup, hck] at ih ⊢
        exact ih

theorem ec_sub8_row {s : DataFrame} {r8 : Row}
    (h : r8 ∈ (sortDesc (filterRows (mapCol s "LOC_QUOTIENT" Cell.toNumeric)
      (fun r => !(getCol r "LOC_QUOTIENT").isNa)) "LOC_QUOTIENT").rows) :
    ∃ rS ∈ s.rows, getCol r8 "LOC_QUOTIENT" = Cell.toNumeric (getCol rS "LOC_QUOTIENT") ∧
      (Cell.toNumeric (getCol rS "LOC_QUOTIENT")).isNa = false := by
  have h2 := (mem_rows_sortDesc _ _ _).mp h
  obtain ⟨h3, hval⟩ := List.mem_filter.mp h2
  obtain ⟨rS, hrS, rfl⟩ := List.mem_map.mp h3
  have hLQ : getCol (setCol rS "LOC_QUOTIENT" (Cell.toNumeric (getCol rS "LOC_QUOTIENT")))
      "LOC_QUOTIENT" = Cell.toNumeric (getCol rS "LOC_QUOTIENT") := getCol_set_self _ _ _
  refine ⟨rS, hrS, hLQ, ?_⟩
  rw [hLQ] at hval
  simpa using hval

theorem ecTail_eq (s : DataFrame) (n : Nat) :
    ecTail s n =
      (match pickWageCol (sortDesc (filterRows (mapCol s "LOC_QUOTIENT" Cell.toNumeric)
          (fun r => !(getCol r "LOC_QUOTIENT").isNa)) "LOC_QUOTIENT") with
       | some (wageCol, sub9) =>
         if wageCol == "A_MEDIAN" then
           headN (selectCols sub9 (["AREA_TITLE", "LOC_QUOTIENT"]
             ++ (if "TOT_EMP" ∈ sub9.cols then ["TOT_EMP"] else []) ++ [wageCol])) n
         else
           renameCol (headN (selectCols sub9 (["AREA_TITLE", "LOC_QUOTIENT"]
             ++ (if "TOT_EMP" ∈ sub9.cols then ["TOT_EMP"] else []) ++ [wageCol])) n)
             wageCol "A_MEDIAN"
       | none =>
         headN (selectCols (sortDesc (filterRows (mapCol s "LOC_QUOTIENT" Cell.toNumeric)
             (fun r => !(getCol r "LOC_QUOTIENT").isNa)) "LOC_QUOTIENT")
           (["AREA_TITLE", "LOC_QUOTIENT"]
             ++ (if "TOT_EMP" ∈ (sortDesc (filterRows (mapCol s "LOC_QUOTIENT" Cell.toNumeric)
                 (fun r => !(getCol r "LOC_QUOTIENT").isNa)) "LOC_QUOTIENT").cols then
               ["TOT_EMP"] else []))) n) := rfl

/-- Every row the concentration tail outputs carries the coerced,
non-missing LOC_QUOTIENT value of some input row. -/
theorem ecTail_out (s : DataFrame) (n : Nat) :
    ∀ rOut ∈ (ecTail s n).rows, ∃ rS ∈ s.rows,
      getCol rOut "LOC_QUOTIENT" = Cell.toNumeric (getCol rS "LOC_QUOTIENT") ∧
      (Cell.toNumeric (getCol rS "LOC_QUOTIENT")).isNa = false := by
  intro rOut hrOut
  rw [ecTail_eq] at hrOut
  rcases hp : pickWageCol (sortDesc (filterRows (mapCol s "LOC_QUOTIENT" Cell.toNumeric)
      (fun r => !(getCol r "LOC_QUOTIENT").isNa)) "LOC_QUOTIENT") with _ | p
  · simp only [hp] at hrOut
    obtain ⟨r8, hr8, rfl⟩ := List.mem_map.mp (List.mem_of_mem_take hrOut)
    obtain ⟨rS, hrS, h1, h2⟩ := ec_sub8_row hr8
    refine ⟨rS, hrS, ?_, h2⟩
    rw [getCol_proj r8 _ "LOC_QUOTIENT" (by simp), h1]
  · obtain ⟨w, s9⟩ := p
    simp only [hp] at hrOut
    have hwcases := (pickWageCol_spec hp).1
    by_cases hw : (w == "A_MEDIAN") = true
    · rw [if_pos hw] at hrOut
      obtain ⟨r9, hr9, rfl⟩ := List.mem_map.mp (List.mem_of_mem_take hrOut)
      obtain ⟨r8, hr8, hpres⟩ := (pickWageCol_spec hp).2 r9 hr9
      obtain ⟨rS, hrS, h1, h2⟩ := ec_sub8_row hr8
      refine ⟨rS, hrS, ?_, h2⟩
      rw [getCol_proj r9 _ "LOC_QUOTIENT" (by simp), hpres "LOC_QUOTIENT" (by decide), h1]
    · rw [if_neg hw] at hrOut
      obtain ⟨rMid, hMid, rfl⟩ := List.mem_map.mp hrOut
      obtain ⟨r9, hr9, rfl⟩ := List.mem_map.mp (List.mem_of_mem_take hMid)
      obtain ⟨r8, hr8, hpres⟩ := (pickWageCol_spec hp).2 r9 hr9
      obtain ⟨rS, hrS, h1, h2⟩ := ec_sub8_row hr8
      have hlw : ("LOC_QUOTIENT" : String) ≠ w := by
        rcases hwcases with rfl | rfl | rfl <;> decide
      refine ⟨rS, hrS, ?_, h2⟩
      rw [getCol_renameRow _ w "LOC_QUOTIENT" hlw (by decide),
        getCol_proj r9 _ "LOC_QUOTIENT" (by simp), hpres "LOC_QUOTIENT" (by decide), h1]

/-- The jobs-ratio case of the fallback: every row of the frame with the
approximated LOC_QUOTIENT column carries either a missing value or the
ratio of its JOBS_1000 value to the national one. -/
theorem ecFallback_fill_case {B sub4 : DataFrame} {j : Rat}
    (hprov : ∀ r4 ∈ sub4.rows, ∃ r ∈ B.rows, getCol r4 "JOBS_1000" = getCol r "JOBS_1000")
    (rS : Row)
    (hrS : rS ∈ (addCol sub4 "LOC_QUOTIENT" (fun r =>
      match (Cell.toNumeric (getCol r "JOBS_1000")).toNumOpt with
      | some q => Cell.num (q / j)
      | none => Cell.na)).rows) :
    ((Cell.toNumeric (getCol rS "LOC_QUOTIENT")).isNa = true) ∨
    (∃ r0 ∈ B.rows, ∃ q : Rat, Cell.toNumeric (getCol r0 "JOBS_1000") = Cell.num q ∧
      Cell.toNumeric (getCol rS "LOC_QUOTIENT") = Cell.num (q / j)) := by
  obtain ⟨r4, hr4, rfl⟩ := List.mem_map.mp hrS
  obtain ⟨r, hr, hJeq⟩ := hprov r4 hr4
  rcases hv : (Cell.toNumeric (getCol r4 "JOBS_1000")).toNumOpt with _ | q
  · refine Or.inl ?_
    rw [getCol_set_self]
    beta_reduce
    rw [hv]
    rfl
  · refine Or.inr ⟨r, hr, q, ?_, ?_⟩
    · rw [← hJeq]
      exact toNumOpt_some hv
    · rw [getCol_set_self]
      beta_reduce
      rw [hv]
      rfl

/-- When no direct or alias location quotient value exists among the
filtered rows and the national jobs-per-1000 value is positive, each row
of the fallback stage carries either a missing LOC_QUOTIENT or exactly
the jobs-per-1000 ratio against the national value. -/
theorem ecFallback_rows (nat : DataFrame) (code : String) (B : DataFrame) (j : Rat)
    (hLQ1 : ∀ r ∈ B.rows, (Cell.toNumeric (getCol r "LOC_QUOTIENT")).isNa = true)
    (hLQ2 : ∀ r ∈ B.rows, (Cell.toNumeric (getCol r "LOC_Q")).isNa = true)
    (hNat : natJobs1000 nat code = some j) (hj : 0 < j) :
    ∀ rS ∈ (ecFallback nat code (ecCoerce (ecAlias B))).rows,
      ((Cell.toNumeric (getCol rS "LOC_QUOTIENT")).isNa = true) ∨
      (∃ r0 ∈ B.rows, ∃ q : Rat, Cell.toNumeric (getCol r0 "JOBS_1000") = Cell.num q ∧
        Cell.toNumeric (getCol rS "LOC_QUOTIENT") = Cell.num (q / j)) := by
  by_cases hA : "LOC_QUOTIENT" ∈ B.cols
  · -- direct column present (but entirely missing): re-coerced in place
    have e34 : ecCoerce (ecAlias B) = mapCol B "LOC_QUOTIENT" Cell.toNumeric := by
      have e3 : ecAlias B = B := by
        unfold ecAlias
        rw [if_neg (fun h => h.1 hA)]
      rw [e3]
      unfold ecCoerce
      rw [if_pos hA]
    have hprov : ∀ r4 ∈ (ecCoerce (ecAlias B)).rows, ∃ r ∈ B.rows,
        getCol r4 "JOBS_1000" = getCol r "JOBS_1000" := by
      rw [e34]
      intro r4 hr4
      obtain ⟨r, hr, rfl⟩ := List.mem_map.mp hr4
      exact ⟨r, hr, getCol_set_ne _ _ _ _ (by decide)⟩
    have hallNa : ∀ r4 ∈ (ecCoerce (ecAlias B)).rows,
        (getCol r4 "LOC_QUOTIENT").isNa = true := by
      rw [e34]
      intro r4 hr4
      obtain ⟨r, hr, rfl⟩ := List.mem_map.mp hr4
      rw [getCol_set_self]
      exact hLQ1 r hr
    have hcond : "LOC_QUOTIENT" ∉ (ecCoerce (ecAlias B)).cols ∨
        (ecCoerce (ecAlias B)).rows.all (fun r => (getCol r "LOC_QUOTIENT").isNa) = true :=
      Or.inr (List.all_eq_true.mpr hallNa)
    intro rS hrS
    rw [ecFallback, if_pos hcond] at hrS
    simp only [hNat] at hrS
    by_cases hJ : "JOBS_1000" ∈ (ecCoerce (ecAlias B)).cols
    · rw [if_pos ⟨hj, hJ⟩] at hrS
      exact ecFallback_fill_case hprov rS hrS
    · rw [if_neg (fun h => hJ h.2)] at hrS
      obtain ⟨r, hr, rfl⟩ := by
        rw [e34] at hrS
        exact List.mem_map.mp hrS
      refine Or.inl ?_
      rw [getCol_set_self, toNumeric_idem]
      exact hLQ1 r hr
  · by_cases hQ : "LOC_Q" ∈ B.cols
    · -- alias populated, then re-coerced
      have e3 : ecAlias B
          = addCol B "LOC_QUOTIENT" (fun r => Cell.toNumeric (getCol r "LOC_Q")) := by
        unfold ecAlias
        rw [if_pos ⟨hA, hQ⟩]
      have h4c : "LOC_QUOTIENT" ∈ (ecAlias B).cols := by
        rw [e3, mem_cols_addCol]
        exact Or.inr rfl
      have e4 : ecCoerce (ecAlias B)
          = mapCol (ecAlias B) "LOC_QUOTIENT" Cell.toNumeric := by
        unfold ecCoerce
        rw [if_pos h4c]
      have hprov : ∀ r4 ∈ (ecCoerce (ecAlias B)).rows, ∃ r ∈ B.rows,
          getCol r4 "JOBS_1000" = getCol r "JOBS_1000" := by
        rw [e4, e3]
        intro r4 hr4
        obtain ⟨r3, hr3, rfl⟩ := List.mem_map.mp hr4
        obtain ⟨r, hr, rfl⟩ := List.mem_map.mp hr3
        refine ⟨r, hr, ?_⟩
        rw [getCol_set_ne _ _ _ _ (by decide), getCol_set_ne _ _ _ _ (by decide)]
      have hallNa : ∀ r4 ∈ (ecCoerce (ecAlias B)).rows,
          (getCol r4 "LOC_QUOTIENT").isNa = true := by
        rw [e4, e3]
        intro r4 hr4
        obtain ⟨r3, hr3, rfl⟩ := List.mem_map.mp hr4
        obtain ⟨r, hr, rfl⟩ := List.mem_map.mp hr3
        rw [getCol_set_self, getCol_set_self, toNumeric_idem]
        exact hLQ2 r hr
      have hcond : "LOC_QUOTIENT" ∉ (ecCoerce (ecAlias B)).cols ∨
          (ecCoerce (ecAlias B)).rows.all (fun r => (getCol r "LOC_QUOTIENT").isNa) = true :=
        Or.inr (List.all_eq_true.mpr hallNa)
      intro rS hrS
      rw [ecFallback, if_pos hcond] at hrS
      simp only [hNat] at hrS
      by_cases hJ : "JOBS_1000" ∈ (ecCoerce (ecAlias B)).cols
      · rw [if_pos ⟨hj, hJ⟩] at hrS
        exact ecFallback_fill_case hprov rS hrS
      · rw [if_neg (fun h => hJ h.2)] at hrS
        refine Or.inl ?_
        have hstep : (getCol rS "LOC_QUOTIENT").isNa = true := hallNa rS hrS
        rw [cell_eq_na hstep]
        rfl
    · -- neither column: the frame passes through untouched
      have e34 : ecCoerce (ecAlias B) = B := by
        have e3 : ecAlias B = B := by
          unfold ecAlias
          rw [if_neg (fun h => hQ h.2)]
        rw [e3]
        unfold ecCoerce
        rw [if_neg hA]
      have hprov : ∀ r4 ∈ (ecCoerce (ecAlias B)).rows, ∃ r ∈ B.rows,
          getCol r4 "JOBS_1000" = getCol r "JOBS_1000" := by
        rw [e34]
        intro r4 hr4
        exact ⟨r4, hr4, rfl⟩
      have hcond : "LOC_QUOTIENT" ∉ (ecCoerce (ecAlias B)).cols ∨
          (ecCoerce (ecAlias B)).rows.all (fun r => (getCol r "LOC_QUOTIENT").isNa) = true := by
        rw [e34]
        exact Or.inl hA
      intro rS hrS
      rw [ecFallback, if_pos hcond] at hrS
      simp only [hNat] at hrS
      by_cases hJ : "JOBS_1000" ∈ (ecCoerce (ecAlias B)).cols
      · rw [if_pos ⟨hj, hJ⟩] at hrS
        exact ecFallback_fill_case hprov rS hrS
      · rw [if_neg (fun h => hJ h.2)] at hrS
        rw [e34] at hrS
        exact Or.inl (hLQ1 rS hrS)

/-- C7: when neither the direct LOC_QUOTIENT column nor its LOC_Q alias
has any non-missing value among the geography-filtered rows, and the
national jobs-per-1000 value for the occupation is present and positive,
every row employment_concentration_for_occ returns carries exactly its
region's jobs-per-1000 divided by the national jobs-per-1000 as its
location quotient. -/
theorem concentration_jobs1000_fallback (stateTbl msaTbl nat : DataFrame)
    (occ_code level : String) (top_n : Nat) (j : Rat)
    (hLQ : ∀ r ∈ (geoFilter (socFilter (if level == "state" then stateTbl else msaTbl)
        (canonStr occ_code)) level).rows,
      (Cell.toNumeric (getCol r "LOC_QUOTIENT")).isNa = true ∧
      (Cell.toNumeric (getCol r "LOC_Q")).isNa = true)
    (hNat : natJobs1000 nat (canonStr occ_code) = some j) (hj : 0 < j) :
    ∀ rOut ∈ (employment_concentration_for_occ stateTbl msaTbl nat
        occ_code level top_n).rows,
      ∃ r0 ∈ (geoFilter (socFilter (if level == "state" then stateTbl else msaTbl)
          (canonStr occ_code)) level).rows,
        ∃ q : Rat, Cell.toNumeric (getCol r0 "JOBS_1000") = Cell.num q ∧
          getCol rOut "LOC_QUOTIENT" = Cell.num (q / j) := by
  intro rOut hrOut
  have hec : employment_concentration_for_occ stateTbl msaTbl nat occ_code level top_n =
      (if "SOC_CANON" ∈ (if level == "state" then stateTbl else msaTbl).cols ∨
          "OCC_CODE" ∈ (if level == "state" then stateTbl else msaTbl).cols then
        if (socFilter (if level == "state" then stateTbl else msaTbl)
            (canonStr occ_code)).rows.isEmpty then emptyConc
        else if (geoFilter (socFilter (if level == "state" then stateTbl else msaTbl)
            (canonStr occ_code)) level).rows.isEmpty then emptyConc
        else if "LOC_QUOTIENT" ∉ (ecFallback nat (canonStr occ_code)
            (ecCoerce (ecAlias (geoFilter (socFilter
              (if level == "state" then stateTbl else msaTbl)
              (canonStr occ_code)) level)))).cols then emptyConc
        else ecTail (ecFallback nat (canonStr occ_code)
            (ecCoerce (ecAlias (geoFilter (socFilter
              (if level == "state" then stateTbl else msaTbl)
              (canonStr occ_code)) level)))) top_n
      else emptyConc) := rfl
  rw [hec] at hrOut
  by_cases hg : "SOC_CANON" ∈ (if level == "state" then stateTbl else msaTbl).cols ∨
      "OCC_CODE" ∈ (if level == "state" then stateTbl else msaTbl).cols
  · rw [if_pos hg] at hrOut
    by_cases h1 : (socFilter (if level == "state" then stateTbl else msaTbl)
        (canonStr occ_code)).rows.isEmpty
    · rw [if_pos h1] at hrOut
      exact absurd hrOut (by simp [emptyConc])
    rw [if_neg h1] at hrOut
    by_cases h2 : (geoFilter (socFilter (if level == "state" then stateTbl else msaTbl)
        (canonStr occ_code)) level).rows.isEmpty
    · rw [if_pos h2] at hrOut
      exact absurd hrOut (by simp [emptyConc])
    rw [if_neg h2] at hrOut
    by_cases h3 : "LOC_QUOTIENT" ∉ (ecFallback nat (canonStr occ_code)
        (ecCoerce (ecAlias (geoFilter (socFilter
          (if level == "state" then stateTbl else msaTbl)
          (canonStr occ_code)) level)))).cols
    · rw [if_pos h3] at hrOut
      exact absurd hrOut (by simp [emptyConc])
    rw [if_neg h3] at hrOut
    obtain ⟨rS, hrS, hLQout, hNa⟩ := ecTail_out _ top_n rOut hrOut
    rcases ecFallback_rows nat (canonStr occ_code)
        (geoFilter (socFilter (if level == "state" then stateTbl else msaTbl)
          (canonStr occ_code)) level) j
        (fun r hr => (hLQ r hr).1) (fun r hr => (hLQ r hr).2) hNat hj rS hrS with
      hna | ⟨r0, hr0, q, hq1, hq2⟩
    · simp [hna] at hNa
    · exact ⟨r0, hr0, q, hq1, by rw [hLQout, hq2]⟩
  · rw [if_neg hg] at hrOut
    exact absurd hrOut (by simp [emptyConc])

/-- The C7 witness state table: JOBS_1000 values but no location-quotient
data at all. -/
def stCTblEx : DataFrame :=
  ⟨["OCC_CODE", "SOC_CANON", "AREA_TITLE", "AREA_TYPE_NUM", "JOBS_1000", "A_MEDIAN"],
   [[("OCC_CODE", Cell.str "11-1011"), ("SOC_CANON", Cell.str "11-1011"),
     ("AREA_TITLE", Cell.str "Alpha"), ("AREA_TYPE_NUM", Cell.num 2),
     ("JOBS_1000", Cell.num 30), ("A_MEDIAN", Cell.num 90000)],
    [("OCC_CODE", Cell.str "11-1011"), ("SOC_CANON", Cell.str "11-1011"),
     ("AREA_TITLE", Cell.str "Beta"), ("AREA_TYPE_NUM", Cell.num 2),
     ("JOBS_1000", Cell.num 10), ("A_MEDIAN", Cell.num 80000)]]⟩

/-- The C7 witness crosswalk with a national jobs-per-1000 of 20. -/
def natCEx : DataFrame :=
  ⟨["OCC_CODE", "SOC_CANON", "JOBS_1000"],
   [[("OCC_CODE", Cell.str "11-1011"), ("SOC_CANON", Cell.str "11-1011"),
     ("JOBS_1000", Cell.num 20)]]⟩

/-- Witness for concentration_jobs1000_fallback on concrete tables with an
entirely missing location-quotient column. -/
theorem concentration_jobs1000_fallback_witness :
    (∀ r ∈ (geoFilter (socFilter (if ("state" : String) == "state" then stCTblEx else msTblEx)
        (canonStr "11-1011")) "state").rows,
      (Cell.toNumeric (getCol r "LOC_QUOTIENT")).isNa = true ∧
      (Cell.toNumeric (getCol r "LOC_Q")).isNa = true) ∧
    natJobs1000 natCEx (canonStr "11-1011") = some 20 ∧
    (0 : Rat) < 20 ∧
    (∀ rOut ∈ (employment_concentration_for_occ stCTblEx msTblEx natCEx
        "11-1011" "state" 5).rows,
      ∃ r0 ∈ (geoFilter (socFilter (if ("state" : String) == "state" then stCTblEx else msTblEx)
          (canonStr "11-1011")) "state").rows,
        ∃ q : Rat, Cell.toNumeric (getCol r0 "JOBS_1000") = Cell.num q ∧
          getCol rOut "LOC_QUOTIENT" = Cell.num (q / 20)) := by
  refine ⟨by decide, by decide, by norm_num, ?_⟩
  exact concentration_jobs1000_fallback stCTblEx msTblEx natCEx "11-1011" "state" 5 20
    (by decide) (by decide) (by norm_num)

end HireSight
